import Mathlib

/-!
# juego_topo: the button debouncer and the game state machine of `main.cpp`

A shallow embedding of `src/BaseProject/main.cpp`.

Modelling conventions.

* The program state is the record `State`: the globals of `main.cpp`, the
  locals of `main` (they live across loop iterations) and the value last
  written to the `leds` bus.
* One iteration of `while(TRUE)` is the function `mainLoop`.  What the
  iteration reads from the platform is the record `Input`:
  `now` is the value of `miTimer.read_ms()` (one loop iteration is far shorter
  than a millisecond, so every read of one iteration returns the same value),
  `bus i` is the value `botones.read()` returns inside the call
  `actuallizaMef(i)` (every iteration calls it at most once per index), and
  `rand1`, `rand2` are the results of the two calls of `rand()`.
* Clock readings and the `int` variables holding them are `Int`; the timer
  counts up from zero, so every difference the program takes stays inside
  `int`.  `uint8_t`/`uint16_t` variables are `Nat`, with the wrap-around written
  out where the code can reach it (`acum++`).  `ultimo` is `unsigned int`, so
  the heartbeat comparison is taken modulo `2^32`.
* `srand` only reseeds the generator whose results are inputs here; it has no
  other effect.
-/

namespace JuegoTopo

set_option maxRecDepth 100000

/-! ## Constants -/

abbrev BUTTON_DOWN : Nat := 0
abbrev BUTTON_UP : Nat := 1
abbrev BUTTON_FALLING : Nat := 2
abbrev BUTTON_RISING : Nat := 3

abbrev TIMEMAX : Nat := 2001
abbrev BASETIME : Nat := 5000
abbrev TIMETOSTART : Int := 1000
abbrev INTERVAL : Int := 40
abbrev ESTADO : Int := 1000
abbrev CAMBIO : Int := 500
abbrev NROBOTONES : Nat := 4
abbrev MAXLED : Nat := 4
abbrev PARPADEO : Nat := 6

abbrev STANDBY : Nat := 0
abbrev KEYS : Nat := 1
abbrev GAMEMOLE : Nat := 2
abbrev COMP : Nat := 3
abbrev WIN : Nat := 4
abbrev MOLEWIN : Nat := 5

/-! ## Data model -/

/-- The record type of one push button. -/
structure _sTeclas where
  pos : Nat
  estado : Nat
  timeDown : Int
  timeDiff : Int
deriving DecidableEq, Repr

/-- Globals of `main.cpp`, locals of `main`, and the value on the `leds` bus. -/
structure State where
  ourButton : Fin 4 → _sTeclas
  leds : Nat
  tiempoMs : Int
  estado : Nat
  ultimo : Int
  ledAuxRandom : Nat
  ledOn : Nat
  posBoton : Nat
  tiempoRandom : Int
  ledAuxRandomTime : Int
  ledAuxJuegoStart : Int
  indiceAux : Nat
  control : Nat
  check : Int
  acumTime : Int
  acum : Nat

/-- What one loop iteration reads from the platform. -/
structure Input where
  now : Int
  bus : Fin 4 → Nat
  rand1 : Nat
  rand2 : Nat

/-- The table `mask[] = {0x0001, 0x0002, 0x0004, 0x0008}`; an index outside the
table reads as 0 here (the program never uses one). -/
def mask (i : Nat) : Nat := [1, 2, 4, 8].getD i 0

/-- A write to the four-pin `BusOut leds`: the four low bits reach the pins. -/
def busWrite (v : Nat) : Nat := v % 16

/-- Replace the record of button `indice` in `ourButton`. -/
def setButton (s : State) (indice : Fin 4) (b : _sTeclas) : State :=
  { s with ourButton := fun j => if j = indice then b else s.ourButton j }

/-! ## The button state machine -/

/-- The function `startMef(indice)`. -/
def startMef (indice : Fin 4) (s : State) : State :=
  setButton s indice { s.ourButton indice with estado := BUTTON_UP }

/-- The function `actuallizaMef(indice)`, with `now` the clock reading and `bus` the value of
`botones.read()` inside the call. -/
def actuallizaMef (now : Int) (bus : Nat) (indice : Fin 4) (s : State) : State :=
  let b := s.ourButton indice
  if b.estado = BUTTON_DOWN then
    if bus &&& mask indice ≠ 0 then
      setButton s indice { b with estado := BUTTON_RISING }
    else s
  else if b.estado = BUTTON_UP then
    if ¬ (bus &&& mask indice ≠ 0) then
      setButton s indice { b with estado := BUTTON_FALLING }
    else s
  else if b.estado = BUTTON_FALLING then
    if ¬ (bus &&& mask indice ≠ 0) then
      setButton s indice { b with timeDown := now, estado := BUTTON_DOWN }
    else
      setButton s indice { b with estado := BUTTON_UP }
  else if b.estado = BUTTON_RISING then
    if bus &&& mask indice ≠ 0 then
      setButton s indice { b with estado := BUTTON_UP, timeDiff := now - b.timeDown }
    else
      setButton s indice { b with estado := BUTTON_DOWN }
  else startMef indice s

/-- The function `togleLed(indice)`; the parameter is a `uint8_t`. -/
def togleLed (indice : Nat) (s : State) : State :=
  { s with leds := busWrite (mask (indice % 256)) }

/-! ## The main loop -/

/-- The button indices in the order the `for` loops visit them. -/
def indices : List (Fin 4) := [0, 1, 2, 3]

/-- The heartbeat bookkeeping at the head of the loop body. -/
def heartbeat (now : Int) (s : State) : State :=
  if (now - s.ultimo) % 4294967296 > ESTADO then
    { s with ultimo := now % 4294967296 }
  else s

/-- Body of the `for` loop of `case STANDBY`. -/
def standbyBody (e : Input) (s : State) (indice : Fin 4) : State :=
  let s1 := actuallizaMef e.now (e.bus indice) indice s
  if (s1.ourButton indice).timeDiff ≥ TIMETOSTART then
    { s1 with estado := KEYS }
  else s1

/-- The branch `case STANDBY`. -/
def caseSTANDBY (e : Input) (s : State) : State :=
  if e.now - s.tiempoMs > INTERVAL then
    indices.foldl (standbyBody e) { s with tiempoMs := e.now }
  else s

/-- The `for` loop of `case KEYS`, from the indices still to visit; it stops
at the first button that is not `BUTTON_UP` after its update and leaves its
index in `indiceAux`. -/
def keysLoop (e : Input) : List (Fin 4) → State → State
  | [], s => s
  | indice :: rest, s =>
    let s1 := actuallizaMef e.now (e.bus indice) indice s
    if (s1.ourButton indice).estado ≠ BUTTON_UP then s1
    else keysLoop e rest { s1 with indiceAux := indice.val + 1 }

/-- The branch `case KEYS`. -/
def caseKEYS (e : Input) (s : State) : State :=
  let s1 := keysLoop e indices { s with indiceAux := 0 }
  if s1.indiceAux = NROBOTONES then
    { s1 with estado := GAMEMOLE, leds := busWrite 15, ledAuxJuegoStart := e.now }
  else s1

/-- Body of the polling `for` loop of `case GAMEMOLE`. -/
def gameBody (e : Input) (s : State) (indice : Fin 4) : State :=
  let s1 := actuallizaMef e.now (e.bus indice) indice s
  if (s1.ourButton indice).estado = BUTTON_DOWN then
    { s1 with estado := COMP,
              posBoton := (s1.ourButton indice).pos % 65536,
              ledOn := s1.ledAuxRandom }
  else s1

/-- First statement of `case GAMEMOLE`: light the mole, or end the start
sequence. -/
def gameLight (e : Input) (s : State) : State :=
  if s.leds = 0 then
    let s1 := { s with tiempoRandom := e.now,
                       ledAuxRandom := e.rand1 % MAXLED,
                       ledAuxRandomTime := ((e.rand2 % TIMEMAX + BASETIME : Nat) : Int) }
    { togleLed s1.ledAuxRandom s1 with control := 0 }
  else if e.now - s.ledAuxJuegoStart > TIMETOSTART then
    if s.leds = 15 then
      { s with ledAuxJuegoStart := e.now, leds := busWrite 0 }
    else s
  else s

/-- Second statement of `case GAMEMOLE`: the time-out test. -/
def gameTimeout (e : Input) (s : State) : State :=
  if e.now - s.ledAuxJuegoStart > s.ledAuxRandomTime ∧ s.control ≠ 0 then
    { s with estado := MOLEWIN }
  else s

/-- Third statement of `case GAMEMOLE`: poll the buttons. -/
def gamePoll (e : Input) (s : State) : State :=
  if s.leds ≠ 0 ∧ s.leds ≠ 15 then
    if e.now - s.check > INTERVAL then
      indices.foldl (gameBody e) { s with check := e.now }
    else s
  else s

/-- The branch `case GAMEMOLE`. -/
def caseGAMEMOLE (e : Input) (s : State) : State :=
  gamePoll e (gameTimeout e (gameLight e s))

/-- The branch `case COMP`. -/
def caseCOMP (s : State) : State :=
  if mask s.ledOn = mask s.posBoton then
    { s with estado := WIN }
  else
    { s with estado := MOLEWIN }

/-- The end of a blink tick, shared by `case MOLEWIN` and `case WIN`:
`if(acum==PARPADEO){estado=STANDBY; acum=0;} acum++;` on a `uint8_t`. -/
def blinkCount (s : State) : State :=
  let s1 := if s.acum = PARPADEO then { s with estado := STANDBY, acum := 0 } else s
  { s1 with acum := (s1.acum + 1) % 256 }

/-- The branch `case MOLEWIN`. -/
def caseMOLEWIN (e : Input) (s : State) : State :=
  if e.now - s.acumTime > CAMBIO then
    let s1 := { s with acumTime := e.now }
    let s2 := if s1.acum % 2 = 0 then { s1 with leds := busWrite 0 }
              else togleLed s1.ledAuxRandom s1
    blinkCount s2
  else s

/-- The branch `case WIN`. -/
def caseWIN (e : Input) (s : State) : State :=
  if e.now - s.acumTime > CAMBIO then
    let s1 := { s with acumTime := e.now }
    let s2 := if s1.acum % 2 = 0 then { s1 with leds := busWrite 0 }
              else { s1 with leds := busWrite 15 }
    blinkCount s2
  else s

/-- The `switch(estado)` of the loop body. -/
def gameStep (e : Input) (s : State) : State :=
  if s.estado = STANDBY then caseSTANDBY e s
  else if s.estado = KEYS then caseKEYS e s
  else if s.estado = GAMEMOLE then caseGAMEMOLE e s
  else if s.estado = COMP then caseCOMP s
  else if s.estado = MOLEWIN then caseMOLEWIN e s
  else if s.estado = WIN then caseWIN e s
  else { s with estado := STANDBY }

/-- One iteration of `while(TRUE)`. -/
def mainLoop (e : Input) (s : State) : State :=
  gameStep e (heartbeat e.now s)

/-- The state when the loop is first entered: zero-initialised globals, the
initialisers of the locals of `main`, and the `for` loop that calls `startMef`
and numbers the buttons. -/
def initState : State :=
  { ourButton := fun i => { pos := i.val, estado := BUTTON_UP, timeDown := 0, timeDiff := 0 }
    leds := 0
    tiempoMs := 0
    estado := STANDBY
    ultimo := 0
    ledAuxRandom := 0
    ledOn := 0
    posBoton := 0
    tiempoRandom := 0
    ledAuxRandomTime := 0
    ledAuxJuegoStart := 0
    indiceAux := 0
    control := 0
    check := 0
    acumTime := 0
    acum := 1 }

/-- Run the loop over a list of inputs, one iteration each. -/
def run : List Input → State → State
  | [], s => s
  | e :: es, s => run es (mainLoop e s)

/-- States the program can be in at the head of a loop iteration. -/
inductive Reachable : State → Prop
  | init : Reachable initState
  | step (e : Input) (s : State) : Reachable s → Reachable (mainLoop e s)

/-! ## Auxiliary definitions for the proofs -/

/-- The transition of one button record that `actuallizaMef` performs, with the
bus test written as a bit test (`actuallizaMef_eq` relates the two). -/
def buttonNext (now : Int) (bus : Nat) (indice : Fin 4) (b : _sTeclas) : _sTeclas :=
  if b.estado = BUTTON_DOWN then
    if bus.testBit indice.val then { b with estado := BUTTON_RISING } else b
  else if b.estado = BUTTON_UP then
    if bus.testBit indice.val then b else { b with estado := BUTTON_FALLING }
  else if b.estado = BUTTON_FALLING then
    if bus.testBit indice.val then { b with estado := BUTTON_UP }
    else { b with timeDown := now, estado := BUTTON_DOWN }
  else if b.estado = BUTTON_RISING then
    if bus.testBit indice.val then { b with estado := BUTTON_UP, timeDiff := now - b.timeDown }
    else { b with estado := BUTTON_DOWN }
  else { b with estado := BUTTON_UP }

/-- What holds of the round bookkeeping at the head of every loop iteration:
`control` is never set, the mole index is a valid LED index, and the blink
counter `acum` is 1 outside the two blink states and between 1 and `PARPADEO`
inside them. -/
def Inv (s : State) : Prop :=
  s.control = 0 ∧ s.ledAuxRandom < 4 ∧
  ((s.estado = WIN ∨ s.estado = MOLEWIN) → 1 ≤ s.acum ∧ s.acum ≤ PARPADEO) ∧
  (¬ (s.estado = WIN ∨ s.estado = MOLEWIN) → s.acum = 1)

/-! ## Blink schedules -/

/-- A blink schedule starting after a tick at time `t`: each entry is a list of
iterations that come at most `CAMBIO` ms after the last tick, followed by one
tick iteration, which comes more than `CAMBIO` ms after it. -/
def Ticks : Int → List (List Input × Input) → Prop
  | _, [] => True
  | t, (early, e) :: rest =>
    (∀ x ∈ early, x.now - t ≤ CAMBIO) ∧ e.now - t > CAMBIO ∧ Ticks e.now rest

/-- Run the loop over a blink schedule. -/
def runTicks : List (List Input × Input) → State → State
  | [], s => s
  | (early, e) :: rest, s => runTicks rest (mainLoop e (run early s))

/-- The value the blink states write to the leds on an odd tick: all four LEDs
in `WIN`, the mole LED otherwise. -/
def blinkOn (s : State) : Nat :=
  if s.estado = WIN then busWrite 15 else busWrite (mask (s.ledAuxRandom % 256))

/-! ## Concrete executions used as test points -/

/-- Bus value with no button pressed (pull-up inputs read 1). -/
def busReleased : Fin 4 → Nat := fun _ => 15

/-- Bus value with only button `k` pressed. -/
def busPressed (k : Nat) : Fin 4 → Nat := fun _ => 15 - 2 ^ k

/-- Button 0 is held from 50 ms to 1150 ms, the game starts, the start
sequence runs and LED 2 is lit as the mole at 2301 ms with 5000 ms to hit it. -/
def trStart : List Input :=
  [⟨50, busPressed 0, 0, 0⟩, ⟨100, busPressed 0, 0, 0⟩,
   ⟨1150, busReleased, 0, 0⟩, ⟨1200, busReleased, 0, 0⟩,
   ⟨1201, busReleased, 0, 0⟩, ⟨2300, busReleased, 0, 0⟩,
   ⟨2301, busReleased, 2, 0⟩]

/-- After `trStart`, button 2 (the right one) is pressed: the game is in `COMP`. -/
def trComp : List Input :=
  trStart ++ [⟨3000, busPressed 2, 0, 0⟩, ⟨3300, busPressed 2, 0, 0⟩]

/-- After `trStart`, button 1 (a wrong one) is pressed: the game is in `COMP`. -/
def trMiss : List Input :=
  trStart ++ [⟨3000, busPressed 1, 0, 0⟩, ⟨3300, busPressed 1, 0, 0⟩]

/-- The iteration in `COMP` after `trComp`: the game is in `WIN`. -/
def trWin : List Input := trComp ++ [⟨3301, busReleased, 0, 0⟩]

/-- The iteration in `COMP` after `trMiss`: the game is in `MOLEWIN`. -/
def trLose : List Input := trMiss ++ [⟨3301, busReleased, 0, 0⟩]

/-- A whole won round: `trWin` and the six blink ticks; the game is back in
`STANDBY` and every button has been released since 3301 ms. -/
def trRound : List Input :=
  trWin ++ [⟨3900, busReleased, 0, 0⟩, ⟨4401, busReleased, 0, 0⟩,
            ⟨4902, busReleased, 0, 0⟩, ⟨5403, busReleased, 0, 0⟩,
            ⟨5904, busReleased, 0, 0⟩, ⟨6405, busReleased, 0, 0⟩]

/-- The first three iterations of `trStart`: button 0 has been down since
100 ms and has just been read released once, so it is in `BUTTON_RISING`. -/
def trRising : List Input := trStart.take 3

/-- The first six iterations of `trStart`: the start sequence has just put the
leds out, the mole is not lit yet. -/
def trDark : List Input := trStart.take 6

/-- After `trComp`, the iteration in `COMP` and the first blink tick of `WIN`,
both still at 3300 ms; the heartbeat time stamp is 2300. -/
def trWinTick : List Input :=
  trComp ++ [⟨3300, busReleased, 0, 0⟩, ⟨3300, busReleased, 0, 0⟩]

/-- Six blink ticks with two early iterations in between. -/
def sixTicks : List (List Input × Input) :=
  [([], ⟨3900, busReleased, 0, 0⟩), ([⟨4000, busReleased, 0, 0⟩], ⟨4401, busReleased, 0, 0⟩),
   ([], ⟨4902, busReleased, 0, 0⟩), ([⟨5000, busPressed 1, 0, 0⟩], ⟨5403, busReleased, 0, 0⟩),
   ([], ⟨5904, busReleased, 0, 0⟩), ([], ⟨6405, busReleased, 0, 0⟩)]

/-- The first four iterations of `trStart`: the press of button 0 has been
measured and the game is in `KEYS`. -/
def trKeys : List Input := trStart.take 4

/-- The first five iterations of `trStart`: the game has just entered
`GAMEMOLE` with the four leds on and `ledAuxJuegoStart = 1201`. -/
def trEnter : List Input := trStart.take 5

/-- Two iterations during the start delay, the second with button 2 pressed on
the bus. -/
def trWait : List Input := [⟨1500, busReleased, 0, 0⟩, ⟨2201, busPressed 2, 0, 0⟩]

/-- The numbering of the buttons made before the loop: record `i` holds
`pos = i`. -/
def PosInv (s : State) : Prop := ∀ i : Fin 4, (s.ourButton i).pos = i.val

/-- Bus value with buttons 2 and 3 pressed (bits 2 and 3 read 0). -/
def busTwoThree : Fin 4 → Nat := fun _ => 3

/-- Bus value with all four buttons pressed. -/
def busAll : Fin 4 → Nat := fun _ => 0

/-- After `trStart` (mole LED 2), buttons 2 and 3 are first read pressed at
3000 ms: both are in `BUTTON_FALLING`. -/
def trBoth : List Input := trStart ++ [⟨3000, busTwoThree, 0, 0⟩]

/-- As `trStart`, but LED 3 is lit as the mole; then all four buttons are first
read pressed at 3000 ms. -/
def trAllDown : List Input :=
  trDark ++ [⟨2301, busReleased, 3, 0⟩, ⟨3000, busAll, 0, 0⟩]

/-! ## Basic facts -/

theorem mask_eq_two_pow (i : Fin 4) : mask i.val = 2 ^ i.val := by
  fin_cases i <;> rfl

theorem land_two_pow_eq_zero (bus i : Nat) : bus &&& 2 ^ i = 0 ↔ bus.testBit i = false := by
  constructor
  · intro h
    have h1 : (bus &&& 2 ^ i).testBit i = false := by rw [h]; simp
    simpa [Nat.testBit_and, Nat.testBit_two_pow_self] using h1
  · intro h
    apply Nat.eq_of_testBit_eq
    intro j
    by_cases hij : i = j
    · subst hij; simp [Nat.testBit_and, h]
    · simp [Nat.testBit_and, Nat.testBit_two_pow_of_ne hij]

/-- The bus test of `actuallizaMef` is zero exactly when bit `i` of the bus is 0. -/
theorem bus_mask (bus : Nat) (i : Fin 4) :
    bus &&& mask i.val = 0 ↔ bus.testBit i.val = false := by
  rw [mask_eq_two_pow, land_two_pow_eq_zero]

theorem mask_inj (a b : Nat) (ha : a < 4) (hb : b < 4) : mask a = mask b ↔ a = b := by
  interval_cases a <;> interval_cases b <;> simp [mask]

theorem setButton_self (s : State) (i : Fin 4) : setButton s i (s.ourButton i) = s := by
  cases s
  simp only [setButton, State.mk.injEq, and_true]
  funext j
  by_cases h : j = i <;> simp [h]

/-- The call `actuallizaMef(i)` rewrites the record of button `i` and nothing else. -/
theorem actuallizaMef_eq (now : Int) (bus : Nat) (i : Fin 4) (s : State) :
    actuallizaMef now bus i s = setButton s i (buttonNext now bus i (s.ourButton i)) := by
  unfold actuallizaMef buttonNext startMef
  simp only [ne_eq, bus_mask, Bool.not_eq_false, Decidable.not_not]
  cases hb : bus.testBit i.val <;> simp <;> (repeat (split <;> try simp [setButton_self]))

theorem reachable_run (es : List Input) (s : State) (h : Reachable s) :
    Reachable (run es s) := by
  induction es generalizing s with
  | nil => exact h
  | cons e es ih => exact ih _ (Reachable.step e s h)

theorem heartbeat_eq (now : Int) (s : State) :
    heartbeat now s =
      { s with ultimo := if (now - s.ultimo) % 4294967296 > ESTADO
                         then now % 4294967296 else s.ultimo } := by
  unfold heartbeat
  split <;> rfl

theorem standbyBody_eq (e : Input) (s : State) (i : Fin 4) :
    standbyBody e s i =
      { s with ourButton := fun j => if j = i then buttonNext e.now (e.bus i) i (s.ourButton i)
                                     else s.ourButton j,
               estado := if (buttonNext e.now (e.bus i) i (s.ourButton i)).timeDiff ≥ TIMETOSTART
                         then KEYS else s.estado } := by
  unfold standbyBody
  simp only [actuallizaMef_eq, setButton, if_true]
  split <;> rfl

theorem standby_fold (e : Input) (s : State) :
    indices.foldl (standbyBody e) s =
      { s with ourButton := fun j => buttonNext e.now (e.bus j) j (s.ourButton j),
               estado :=
                 if (buttonNext e.now (e.bus 0) 0 (s.ourButton 0)).timeDiff ≥ TIMETOSTART ∨
                    (buttonNext e.now (e.bus 1) 1 (s.ourButton 1)).timeDiff ≥ TIMETOSTART ∨
                    (buttonNext e.now (e.bus 2) 2 (s.ourButton 2)).timeDiff ≥ TIMETOSTART ∨
                    (buttonNext e.now (e.bus 3) 3 (s.ourButton 3)).timeDiff ≥ TIMETOSTART
                 then KEYS else s.estado } := by
  cases s
  simp only [indices, List.foldl, standbyBody_eq, State.mk.injEq, true_and, and_true]
  constructor
  · funext j
    fin_cases j <;> simp
  · simp only [Fin.isValue, ge_iff_le]
    split_ifs <;> first | rfl | omega

/-- Four successive calls of `actuallizaMef`, for the indices 0, 1, 2, 3 in this
order, update every button record once. -/
theorem four_updates (e : Input) (s : State) :
    (actuallizaMef e.now (e.bus 3) 3 (actuallizaMef e.now (e.bus 2) 2
      (actuallizaMef e.now (e.bus 1) 1 (actuallizaMef e.now (e.bus 0) 0 s)))).ourButton
      = fun j => buttonNext e.now (e.bus j) j (s.ourButton j) := by
  simp only [actuallizaMef_eq, setButton]
  funext j
  fin_cases j <;> simp

theorem gameBody_eq (e : Input) (s : State) (i : Fin 4) :
    gameBody e s i =
      { s with ourButton := fun j => if j = i then buttonNext e.now (e.bus i) i (s.ourButton i)
                                     else s.ourButton j,
               estado := if (buttonNext e.now (e.bus i) i (s.ourButton i)).estado = BUTTON_DOWN
                         then COMP else s.estado,
               posBoton := if (buttonNext e.now (e.bus i) i (s.ourButton i)).estado = BUTTON_DOWN
                           then (buttonNext e.now (e.bus i) i (s.ourButton i)).pos % 65536
                           else s.posBoton,
               ledOn := if (buttonNext e.now (e.bus i) i (s.ourButton i)).estado = BUTTON_DOWN
                        then s.ledAuxRandom else s.ledOn } := by
  unfold gameBody
  simp only [actuallizaMef_eq, setButton, if_true]
  split <;> rfl

/-- The polling loop of `GAMEMOLE` writes only `ourButton`, `estado`, `posBoton`
and `ledOn`. -/
theorem game_fold_frame (e : Input) (s : State) :
    indices.foldl (gameBody e) s =
      { s with ourButton := (indices.foldl (gameBody e) s).ourButton,
               estado := (indices.foldl (gameBody e) s).estado,
               posBoton := (indices.foldl (gameBody e) s).posBoton,
               ledOn := (indices.foldl (gameBody e) s).ledOn } := by
  simp only [indices, List.foldl, gameBody_eq]

theorem game_fold_estado (e : Input) (s : State) :
    (indices.foldl (gameBody e) s).estado = COMP ∨
    (indices.foldl (gameBody e) s).estado = s.estado := by
  simp only [indices, List.foldl, gameBody_eq]
  split_ifs <;> simp

/-- The loop of `KEYS` writes only `ourButton` and `indiceAux`. -/
theorem keysLoop_frame (e : Input) (l : List (Fin 4)) (s : State) :
    keysLoop e l s =
      { s with ourButton := (keysLoop e l s).ourButton,
               indiceAux := (keysLoop e l s).indiceAux } := by
  induction l generalizing s with
  | nil => rfl
  | cons i rest ih =>
    unfold keysLoop
    simp only [actuallizaMef_eq]
    split
    · rfl
    · conv_lhs => rw [ih]
      rfl

/-! ### One iteration, state by state -/

theorem mainLoop_STANDBY (e : Input) (s : State) (hs : s.estado = STANDBY) :
    mainLoop e s = caseSTANDBY e (heartbeat e.now s) := by
  unfold mainLoop gameStep
  simp [heartbeat_eq, hs]

theorem mainLoop_KEYS (e : Input) (s : State) (hs : s.estado = KEYS) :
    mainLoop e s = caseKEYS e (heartbeat e.now s) := by
  unfold mainLoop gameStep
  simp [heartbeat_eq, hs]

theorem mainLoop_GAMEMOLE (e : Input) (s : State) (hs : s.estado = GAMEMOLE) :
    mainLoop e s = caseGAMEMOLE e (heartbeat e.now s) := by
  unfold mainLoop gameStep
  simp [heartbeat_eq, hs]

theorem mainLoop_COMP (e : Input) (s : State) (hs : s.estado = COMP) :
    mainLoop e s = caseCOMP (heartbeat e.now s) := by
  unfold mainLoop gameStep
  simp [heartbeat_eq, hs]

theorem mainLoop_MOLEWIN (e : Input) (s : State) (hs : s.estado = MOLEWIN) :
    mainLoop e s = caseMOLEWIN e (heartbeat e.now s) := by
  unfold mainLoop gameStep
  simp [heartbeat_eq, hs]

theorem mainLoop_WIN (e : Input) (s : State) (hs : s.estado = WIN) :
    mainLoop e s = caseWIN e (heartbeat e.now s) := by
  unfold mainLoop gameStep
  simp [heartbeat_eq, hs]

/-- A sampling iteration of `STANDBY` is the heartbeat, the store of the clock
reading in `tiempoMs`, and the loop over the four buttons. -/
theorem mainLoop_STANDBY_poll (e : Input) (s : State)
    (hs : s.estado = STANDBY) (ht : e.now - s.tiempoMs > INTERVAL) :
    mainLoop e s =
      indices.foldl (standbyBody e) { heartbeat e.now s with tiempoMs := e.now } := by
  unfold mainLoop gameStep caseSTANDBY
  simp [heartbeat_eq, hs, ht]

theorem gameLight_lit (e : Input) (s : State) (h0 : s.leds ≠ 0) (h15 : s.leds ≠ 15) :
    gameLight e s = s := by
  unfold gameLight
  simp [h0, h15]

theorem gameTimeout_off (e : Input) (s : State) (hc : s.control = 0) :
    gameTimeout e s = s := by
  unfold gameTimeout
  simp [hc]

theorem gamePoll_idle (e : Input) (s : State) (ht : e.now - s.check ≤ INTERVAL) :
    gamePoll e s = s := by
  unfold gamePoll
  have : ¬ (e.now - s.check > INTERVAL) := by omega
  simp [this]

theorem gamePoll_sample (e : Input) (s : State) (h0 : s.leds ≠ 0) (h15 : s.leds ≠ 15)
    (ht : e.now - s.check > INTERVAL) :
    gamePoll e s = indices.foldl (gameBody e) { s with check := e.now } := by
  unfold gamePoll
  simp [h0, h15, ht]

theorem lit_ne (l : Nat) (hl : l = 1 ∨ l = 2 ∨ l = 4 ∨ l = 8) : l ≠ 0 ∧ l ≠ 15 := by
  rcases hl with h | h | h | h <;> simp [h]

theorem inv_heartbeat (now : Int) (s : State) (h : Inv s) : Inv (heartbeat now s) := by
  rw [heartbeat_eq]; exact h

theorem inv_caseSTANDBY (e : Input) (s : State) (hs : s.estado = STANDBY) (h : Inv s) :
    Inv (caseSTANDBY e s) := by
  obtain ⟨h1, h2, h3, h4⟩ := h
  have ha : s.acum = 1 := h4 (by simp [hs])
  unfold caseSTANDBY
  split
  · rw [standby_fold]
    refine ⟨h1, h2, fun _ => ?_, fun _ => ha⟩
    simp only [ha]; decide
  · exact ⟨h1, h2, h3, h4⟩

theorem inv_caseKEYS (e : Input) (s : State) (hs : s.estado = KEYS) (h : Inv s) :
    Inv (caseKEYS e s) := by
  obtain ⟨h1, h2, h3, h4⟩ := h
  have ha : s.acum = 1 := h4 (by simp [hs])
  unfold caseKEYS
  rw [keysLoop_frame]
  simp only
  split
  · refine ⟨h1, h2, fun _ => ?_, fun _ => ha⟩
    simp only [ha]; decide
  · refine ⟨h1, h2, fun _ => ?_, fun _ => ha⟩
    simp only [ha]; decide

theorem inv_caseGAMEMOLE (e : Input) (s : State) (hs : s.estado = GAMEMOLE) (h : Inv s) :
    Inv (caseGAMEMOLE e s) := by
  obtain ⟨h1, h2, h3, h4⟩ := h
  have ha : s.acum = 1 := h4 (by simp [hs])
  have hL : (gameLight e s).control = 0 ∧ (gameLight e s).ledAuxRandom < 4 ∧
      (gameLight e s).acum = 1 := by
    unfold gameLight togleLed
    split_ifs <;> simp [h1, h2, ha, Nat.mod_lt]
  have hT : gameTimeout e (gameLight e s) = gameLight e s := by
    unfold gameTimeout
    simp [hL.1]
  have hP : (gamePoll e (gameLight e s)).control = 0 ∧
      (gamePoll e (gameLight e s)).ledAuxRandom < 4 ∧
      (gamePoll e (gameLight e s)).acum = 1 := by
    unfold gamePoll
    split_ifs
    · rw [game_fold_frame]; exact hL
    · exact hL
    · exact hL
  unfold caseGAMEMOLE
  rw [hT]
  refine ⟨hP.1, hP.2.1, fun _ => ?_, fun _ => hP.2.2⟩
  simp only [hP.2.2]; decide

theorem inv_caseCOMP (s : State) (hs : s.estado = COMP) (h : Inv s) : Inv (caseCOMP s) := by
  obtain ⟨h1, h2, h3, h4⟩ := h
  have ha : s.acum = 1 := h4 (by simp [hs])
  unfold caseCOMP
  split <;> exact ⟨h1, h2, fun _ => by simp only [ha]; decide, fun _ => ha⟩

theorem inv_blinkCount (s : State) (hs : s.estado = WIN ∨ s.estado = MOLEWIN)
    (h1 : s.control = 0) (h2 : s.ledAuxRandom < 4) (ha : 1 ≤ s.acum ∧ s.acum ≤ PARPADEO) :
    Inv (blinkCount s) := by
  have hP : PARPADEO = 6 := rfl
  unfold blinkCount
  by_cases h6 : s.acum = PARPADEO
  · simp only [h6, if_true]
    exact ⟨h1, h2, fun h => by simp at h, fun _ => rfl⟩
  · simp only [h6, if_false]
    have hm : (s.acum + 1) % 256 = s.acum + 1 := by omega
    refine ⟨h1, h2, fun _ => ?_, fun hn => absurd hs hn⟩
    simp only [hm]; omega

theorem inv_caseWIN (e : Input) (s : State) (hs : s.estado = WIN) (h : Inv s) :
    Inv (caseWIN e s) := by
  have h3 := h.2.2.1 (Or.inl hs)
  unfold caseWIN
  split
  · dsimp only
    split
    · exact inv_blinkCount _ (Or.inl hs) h.1 h.2.1 h3
    · exact inv_blinkCount _ (Or.inl hs) h.1 h.2.1 h3
  · exact h

theorem inv_caseMOLEWIN (e : Input) (s : State) (hs : s.estado = MOLEWIN) (h : Inv s) :
    Inv (caseMOLEWIN e s) := by
  have h3 := h.2.2.1 (Or.inr hs)
  unfold caseMOLEWIN togleLed
  split
  · dsimp only
    split
    · exact inv_blinkCount _ (Or.inr hs) h.1 h.2.1 h3
    · exact inv_blinkCount _ (Or.inr hs) h.1 h.2.1 h3
  · exact h

theorem inv_gameStep (e : Input) (s : State) (h : Inv s) : Inv (gameStep e s) := by
  unfold gameStep
  split_ifs with h0 h1 h2 h3 h4 h5
  · exact inv_caseSTANDBY e s h0 h
  · exact inv_caseKEYS e s h1 h
  · exact inv_caseGAMEMOLE e s h2 h
  · exact inv_caseCOMP s h3 h
  · exact inv_caseMOLEWIN e s h4 h
  · exact inv_caseWIN e s h5 h
  · obtain ⟨a, b, _, d⟩ := h
    have ha : s.acum = 1 := d (by simp [h4, h5])
    exact ⟨a, b, fun hh => by simp at hh, fun _ => ha⟩

theorem inv_mainLoop (e : Input) (s : State) (h : Inv s) : Inv (mainLoop e s) :=
  inv_gameStep e _ (inv_heartbeat e.now s h)

theorem inv_init : Inv initState := by
  refine ⟨rfl, by decide, fun h => ?_, fun _ => rfl⟩
  rcases h with h | h <;> exact absurd h (by decide)

/-- Every state the program reaches satisfies `Inv`. -/
theorem reachable_inv (s : State) (h : Reachable s) : Inv s := by
  induction h with
  | init => exact inv_init
  | step e s _ ih => exact inv_mainLoop e s ih

/-! ### The blink states -/

/-- An iteration of `WIN` or `MOLEWIN` that comes too early does the heartbeat
bookkeeping only. -/
theorem blink_early (e : Input) (s : State) (hs : s.estado = WIN ∨ s.estado = MOLEWIN)
    (ht : e.now - s.acumTime ≤ CAMBIO) : mainLoop e s = heartbeat e.now s := by
  have hn : ¬ (e.now - (heartbeat e.now s).acumTime > CAMBIO) := by
    rw [heartbeat_eq]
    show ¬ (e.now - s.acumTime > CAMBIO)
    omega
  rcases hs with hs | hs
  · rw [mainLoop_WIN e s hs]
    unfold caseWIN
    rw [if_neg hn]
  · rw [mainLoop_MOLEWIN e s hs]
    unfold caseMOLEWIN
    rw [if_neg hn]

theorem blink_early_run (l : List Input) (s : State)
    (hs : s.estado = WIN ∨ s.estado = MOLEWIN)
    (ht : ∀ x ∈ l, x.now - s.acumTime ≤ CAMBIO) :
    run l s = { s with ultimo := (run l s).ultimo } := by
  induction l generalizing s with
  | nil => rfl
  | cons x rest ih =>
    have hx := blink_early x s hs (ht x (List.mem_cons_self x rest))
    have hrest : ∀ y ∈ rest, y.now - (heartbeat x.now s).acumTime ≤ CAMBIO := by
      intro y hy
      rw [heartbeat_eq]
      exact ht y (List.mem_cons_of_mem x hy)
    have hs2 : (heartbeat x.now s).estado = WIN ∨ (heartbeat x.now s).estado = MOLEWIN := by
      rw [heartbeat_eq]; exact hs
    have h2 := ih (heartbeat x.now s) hs2 hrest
    show run rest (mainLoop x s) = { s with ultimo := (run rest (mainLoop x s)).ultimo }
    rw [hx]
    conv_lhs => rw [h2]
    rw [heartbeat_eq]

/-- A blink tick of `WIN` or `MOLEWIN` with the counter at `acum` in 1..6. -/
theorem blink_tick (e : Input) (s : State) (hs : s.estado = WIN ∨ s.estado = MOLEWIN)
    (ht : e.now - s.acumTime > CAMBIO) (ha : 1 ≤ s.acum ∧ s.acum ≤ 6) :
    mainLoop e s =
      { s with ultimo := (heartbeat e.now s).ultimo,
               acumTime := e.now,
               leds := if s.acum % 2 = 0 then 0 else blinkOn s,
               estado := if s.acum = 6 then STANDBY else s.estado,
               acum := if s.acum = 6 then 1 else s.acum + 1 } := by
  have hp : e.now - (heartbeat e.now s).acumTime > CAMBIO := by
    rw [heartbeat_eq]; exact ht
  have hm : (s.acum + 1) % 256 = s.acum + 1 := by omega
  rcases hs with hs | hs
  · rw [mainLoop_WIN e s hs]
    unfold caseWIN blinkCount blinkOn
    rw [if_pos hp, heartbeat_eq]
    by_cases h2 : s.acum % 2 = 0 <;> by_cases h6 : s.acum = 6 <;>
      simp [h2, h6, hs, hm, busWrite]
  · rw [mainLoop_MOLEWIN e s hs]
    unfold caseMOLEWIN blinkCount blinkOn togleLed
    rw [if_pos hp, heartbeat_eq]
    by_cases h2 : s.acum % 2 = 0 <;> by_cases h6 : s.acum = 6 <;>
      simp [h2, h6, hs, hm, busWrite]

/-- The state after a non-empty blink schedule that starts with the counter at
`acum` and ends with it at `n = acum + length - 1 <= 6`. -/
theorem blink_ticks (segs : List (List Input × Input)) :
    ∀ s : State, (s.estado = WIN ∨ s.estado = MOLEWIN) → 1 ≤ s.acum →
      Ticks s.acumTime segs → segs ≠ [] → s.acum + segs.length ≤ 7 →
      (runTicks segs s).leds
        = (if (s.acum + segs.length - 1) % 2 = 0 then 0 else blinkOn s) ∧
      (runTicks segs s).estado
        = (if s.acum + segs.length - 1 = 6 then STANDBY else s.estado) ∧
      (runTicks segs s).acum
        = (if s.acum + segs.length - 1 = 6 then 1 else s.acum + segs.length) ∧
      (runTicks segs s).ledAuxRandom = s.ledAuxRandom := by
  induction segs with
  | nil => intro s _ _ _ h; exact absurd rfl h
  | cons seg rest ih =>
    intro s hs ha ht _ hlen
    obtain ⟨early, e⟩ := seg
    obtain ⟨hearly, htick, hrest⟩ := ht
    simp only [List.length_cons] at hlen ⊢
    have hrun := blink_early_run early s hs hearly
    have hs1 : (run early s).estado = WIN ∨ (run early s).estado = MOLEWIN := by
      rw [hrun]; exact hs
    have ht1 : e.now - (run early s).acumTime > CAMBIO := by rw [hrun]; exact htick
    have ha1 : 1 ≤ (run early s).acum ∧ (run early s).acum ≤ 6 := by
      rw [hrun]; exact ⟨ha, by show s.acum ≤ 6; omega⟩
    have hstep := blink_tick e (run early s) hs1 ht1 ha1
    have hacum : (run early s).acum = s.acum := by rw [hrun]
    have hest : (run early s).estado = s.estado := by rw [hrun]
    have hrand : (run early s).ledAuxRandom = s.ledAuxRandom := by rw [hrun]
    have hon : blinkOn (run early s) = blinkOn s := by
      unfold blinkOn; rw [hest, hrand]
    show (runTicks rest (mainLoop e (run early s))).leds = _ ∧
      (runTicks rest (mainLoop e (run early s))).estado = _ ∧
      (runTicks rest (mainLoop e (run early s))).acum = _ ∧
      (runTicks rest (mainLoop e (run early s))).ledAuxRandom = _
    rw [hstep, hacum, hest, hon]
    cases rest with
    | nil =>
      simp only [runTicks, List.length_nil, Nat.zero_add, Nat.add_sub_cancel]
      refine ⟨?_, ?_, ?_, ?_⟩ <;> trivial
    | cons seg2 rest2 =>
      simp only [List.length_cons] at hlen
      have h6 : s.acum ≠ 6 := by omega
      simp only [h6, if_false]
      have h := ih
        { run early s with ultimo := (heartbeat e.now (run early s)).ultimo,
                           acumTime := e.now,
                           leds := if s.acum % 2 = 0 then 0 else blinkOn s,
                           estado := s.estado,
                           acum := s.acum + 1 }
        hs (by show 1 ≤ s.acum + 1; omega) hrest (List.cons_ne_nil _ _)
        (by simp only [List.length_cons]; omega)
      simp only [List.length_cons] at h
      have e1 : s.acum + 1 + (rest2.length + 1) - 1 = s.acum + (rest2.length + 1 + 1) - 1 := by
        omega
      have e2 : s.acum + 1 + (rest2.length + 1) = s.acum + (rest2.length + 1 + 1) := by
        omega
      have hon2 : blinkOn
          { run early s with ultimo := (heartbeat e.now (run early s)).ultimo,
                             acumTime := e.now,
                             leds := if s.acum % 2 = 0 then 0 else blinkOn s,
                             estado := s.estado,
                             acum := s.acum + 1 } = blinkOn s := by
        unfold blinkOn
        show (if s.estado = WIN then busWrite 15
              else busWrite (mask ((run early s).ledAuxRandom % 256))) = _
        rw [hrand]
      rw [e1, e2, hon2] at h
      exact ⟨h.1, h.2.1, h.2.2.1, h.2.2.2.trans hrand⟩

/-- The iteration that handles `COMP` keeps the blink counter and the mole
index. -/
theorem comp_keeps (e : Input) (s : State) (hs : s.estado = COMP) :
    (mainLoop e s).acum = s.acum ∧ (mainLoop e s).ledAuxRandom = s.ledAuxRandom ∧
    ((mainLoop e s).estado = WIN ∨ (mainLoop e s).estado = MOLEWIN) := by
  rw [mainLoop_COMP e s hs]
  unfold caseCOMP
  split
  · rw [heartbeat_eq]; exact ⟨rfl, rfl, Or.inl rfl⟩
  · rw [heartbeat_eq]; exact ⟨rfl, rfl, Or.inr rfl⟩

/-- In a reachable state an iteration of `GAMEMOLE` never moves to `MOLEWIN`:
the time-out test is guarded by `control`, which no statement sets. -/
theorem gamemole_no_timeout (e : Input) (s : State) (hr : Reachable s)
    (hs : s.estado = GAMEMOLE) : (mainLoop e s).estado = GAMEMOLE ∨ (mainLoop e s).estado = COMP := by
  have hc : s.control = 0 := (reachable_inv s hr).1
  have hL : (gameLight e (heartbeat e.now s)).control = 0 ∧
      (gameLight e (heartbeat e.now s)).estado = GAMEMOLE := by
    rw [heartbeat_eq]
    unfold gameLight togleLed
    split_ifs <;> exact ⟨by first | rfl | exact hc, hs⟩
  rw [mainLoop_GAMEMOLE e s hs]
  unfold caseGAMEMOLE
  rw [gameTimeout_off _ _ hL.1]
  unfold gamePoll
  split_ifs
  · rcases game_fold_estado e { gameLight e (heartbeat e.now s) with check := e.now } with h | h
    · exact Or.inr h
    · exact Or.inl (h.trans hL.2)
  · exact Or.inl hL.2
  · exact Or.inl hL.2

/-! ### The transitions of the game state machine -/

theorem step_from_STANDBY (e : Input) (s : State) (hs : s.estado = STANDBY) :
    (mainLoop e s).estado = STANDBY ∨ (mainLoop e s).estado = KEYS := by
  have hh : (heartbeat e.now s).estado = STANDBY := by rw [heartbeat_eq]; exact hs
  rw [mainLoop_STANDBY e s hs]
  unfold caseSTANDBY
  split
  · rw [standby_fold]
    dsimp only
    split
    · exact Or.inr rfl
    · exact Or.inl hh
  · exact Or.inl hh

theorem step_from_KEYS (e : Input) (s : State) (hs : s.estado = KEYS) :
    (mainLoop e s).estado = KEYS ∨ (mainLoop e s).estado = GAMEMOLE := by
  have hh : (heartbeat e.now s).estado = KEYS := by rw [heartbeat_eq]; exact hs
  rw [mainLoop_KEYS e s hs]
  unfold caseKEYS
  rw [keysLoop_frame]
  dsimp only
  split
  · exact Or.inr rfl
  · exact Or.inl hh

theorem step_from_blink (e : Input) (s : State) (hr : Reachable s)
    (hs : s.estado = WIN ∨ s.estado = MOLEWIN) :
    (mainLoop e s).estado = s.estado ∨ (mainLoop e s).estado = STANDBY := by
  have ha := (reachable_inv s hr).2.2.1 hs
  by_cases ht : e.now - s.acumTime > CAMBIO
  · rw [blink_tick e s hs ht ha]
    show (if s.acum = 6 then STANDBY else s.estado) = s.estado ∨
      (if s.acum = 6 then STANDBY else s.estado) = STANDBY
    split
    · exact Or.inr rfl
    · exact Or.inl rfl
  · rw [blink_early e s hs (by omega), heartbeat_eq]
    exact Or.inl rfl

theorem step_from_other (e : Input) (s : State) (hs : 6 ≤ s.estado) :
    (mainLoop e s).estado = STANDBY := by
  unfold mainLoop gameStep
  rw [heartbeat_eq]
  have h0 : s.estado ≠ STANDBY := by show s.estado ≠ 0; omega
  have h1 : s.estado ≠ KEYS := by show s.estado ≠ 1; omega
  have h2 : s.estado ≠ GAMEMOLE := by show s.estado ≠ 2; omega
  have h3 : s.estado ≠ COMP := by show s.estado ≠ 3; omega
  have h4 : s.estado ≠ WIN := by show s.estado ≠ 4; omega
  have h5 : s.estado ≠ MOLEWIN := by show s.estado ≠ 5; omega
  simp [h0, h1, h2, h3, h4, h5]

/-- In a reachable state, the blink states `WIN` and `MOLEWIN` are entered only
by the iteration that handles `COMP`. -/
theorem blink_entered_from_COMP (e : Input) (s : State) (hr : Reachable s) (st : Nat)
    (hst : st = WIN ∨ st = MOLEWIN) (h1 : s.estado ≠ st) (h2 : (mainLoop e s).estado = st) :
    s.estado = COMP := by
  have c0 := step_from_STANDBY e s
  have c1 := step_from_KEYS e s
  have c2 := gamemole_no_timeout e s hr
  have c4 := step_from_blink e s hr
  have c6 := step_from_other e s
  rw [h2] at c0 c1 c2 c4 c6
  by_cases k0 : s.estado = STANDBY
  · rcases c0 k0 with h | h <;> rcases hst with h' | h' <;> rw [h'] at h <;>
      exact absurd h (by decide)
  by_cases k1 : s.estado = KEYS
  · rcases c1 k1 with h | h <;> rcases hst with h' | h' <;> rw [h'] at h <;>
      exact absurd h (by decide)
  by_cases k2 : s.estado = GAMEMOLE
  · rcases c2 k2 with h | h <;> rcases hst with h' | h' <;> rw [h'] at h <;>
      exact absurd h (by decide)
  by_cases k3 : s.estado = COMP
  · exact k3
  by_cases k45 : s.estado = WIN ∨ s.estado = MOLEWIN
  · rcases c4 k45 with h | h
    · exact absurd h.symm h1
    · rcases hst with h' | h' <;> rw [h'] at h <;> exact absurd h (by decide)
  · have k6 : 6 ≤ s.estado := by
      have k4 : s.estado ≠ 4 := fun h => k45 (Or.inl h)
      have k5 : s.estado ≠ 5 := fun h => k45 (Or.inr h)
      have q0 : s.estado ≠ 0 := k0
      have q1 : s.estado ≠ 1 := k1
      have q2 : s.estado ≠ 2 := k2
      have q3 : s.estado ≠ 3 := k3
      omega
    have h := c6 k6
    rcases hst with h' | h' <;> rw [h'] at h <;> exact absurd h (by decide)

/-- A button at rest keeps its `timeDiff`: once some button in `BUTTON_UP` holds
a `timeDiff` of at least `TIMETOSTART`, every sampling iteration of `STANDBY`
moves to `KEYS`, whatever the bus reads. -/
theorem standby_stale_timeDiff (e : Input) (s : State) (i : Fin 4)
    (hs : s.estado = STANDBY) (ht : e.now - s.tiempoMs > INTERVAL)
    (hup : (s.ourButton i).estado = BUTTON_UP)
    (hd : (s.ourButton i).timeDiff ≥ TIMETOSTART) :
    (mainLoop e s).estado = KEYS := by
  have hb : (buttonNext e.now (e.bus i) i (s.ourButton i)).timeDiff ≥ TIMETOSTART := by
    unfold buttonNext
    simp only [hup]
    cases e.bus i |>.testBit i.val <;> exact hd
  rw [mainLoop_STANDBY_poll e s hs ht, standby_fold, heartbeat_eq]
  dsimp only
  rw [if_pos]
  fin_cases i
  · exact Or.inl hb
  · exact Or.inr (Or.inl hb)
  · exact Or.inr (Or.inr (Or.inl hb))
  · exact Or.inr (Or.inr (Or.inr hb))

/-! ### The loop of `KEYS` -/

/-- The branch `case KEYS` in closed form: the buttons before the first one
that is not `BUTTON_UP` after its update, and that one, are updated. -/
theorem caseKEYS_eq (e : Input) (s : State) :
    caseKEYS e s =
      if (buttonNext e.now (e.bus 0) 0 (s.ourButton 0)).estado ≠ BUTTON_UP then
        { s with ourButton := fun j => if j.val < 1 then buttonNext e.now (e.bus j) j (s.ourButton j)
                                       else s.ourButton j,
                 indiceAux := 0 }
      else if (buttonNext e.now (e.bus 1) 1 (s.ourButton 1)).estado ≠ BUTTON_UP then
        { s with ourButton := fun j => if j.val < 2 then buttonNext e.now (e.bus j) j (s.ourButton j)
                                       else s.ourButton j,
                 indiceAux := 1 }
      else if (buttonNext e.now (e.bus 2) 2 (s.ourButton 2)).estado ≠ BUTTON_UP then
        { s with ourButton := fun j => if j.val < 3 then buttonNext e.now (e.bus j) j (s.ourButton j)
                                       else s.ourButton j,
                 indiceAux := 2 }
      else if (buttonNext e.now (e.bus 3) 3 (s.ourButton 3)).estado ≠ BUTTON_UP then
        { s with ourButton := fun j => buttonNext e.now (e.bus j) j (s.ourButton j),
                 indiceAux := 3 }
      else
        { s with ourButton := fun j => buttonNext e.now (e.bus j) j (s.ourButton j),
                 indiceAux := 4,
                 estado := GAMEMOLE,
                 leds := 15,
                 ledAuxJuegoStart := e.now } := by
  rcases s with ⟨ob, leds, tiempoMs, estado, ultimo, lar, ledOn, posBoton, tr, lart, lajs,
    ia, control, check, acumTime, acum⟩
  have v0 : ((0 : Fin 4) : Nat) = 0 := rfl
  have v1 : ((1 : Fin 4) : Nat) = 1 := rfl
  have v2 : ((2 : Fin 4) : Nat) = 2 := rfl
  have v3 : ((3 : Fin 4) : Nat) = 3 := rfl
  unfold caseKEYS
  simp only [indices, keysLoop, actuallizaMef_eq, setButton]
  by_cases h0 : (buttonNext e.now (e.bus 0) 0 (ob 0)).estado = BUTTON_UP <;>
  by_cases h1 : (buttonNext e.now (e.bus 1) 1 (ob 1)).estado = BUTTON_UP <;>
  by_cases h2 : (buttonNext e.now (e.bus 2) 2 (ob 2)).estado = BUTTON_UP <;>
  by_cases h3 : (buttonNext e.now (e.bus 3) 3 (ob 3)).estado = BUTTON_UP <;>
  simp [h0, h1, h2, h3, busWrite, v0, v1, v2, v3] <;>
  (funext j; fin_cases j <;> simp)

/-! ### The start sequence of `GAMEMOLE` -/

/-- A list of heartbeats changes `ultimo` only. -/
theorem heartbeats_frame (ts : List Int) (s : State) :
    ts.foldl (fun st t => heartbeat t st) s
      = { s with ultimo := (ts.foldl (fun st t => heartbeat t st) s).ultimo } := by
  induction ts generalizing s with
  | nil => rfl
  | cons t rest ih =>
    show rest.foldl (fun st t => heartbeat t st) (heartbeat t s)
      = { s with ultimo := (rest.foldl (fun st t => heartbeat t st) (heartbeat t s)).ultimo }
    conv_lhs => rw [ih (heartbeat t s)]
    rw [heartbeat_eq]

/-- With the four leds on and the start delay not over, an iteration of
`GAMEMOLE` does the heartbeat bookkeeping only. -/
theorem gamemole_wait (e : Input) (s : State) (hs : s.estado = GAMEMOLE)
    (hl : s.leds = 15) (hc : s.control = 0)
    (ht : e.now - s.ledAuxJuegoStart ≤ TIMETOSTART) :
    mainLoop e s = heartbeat e.now s := by
  have hl2 : (heartbeat e.now s).leds = 15 := by rw [heartbeat_eq]; exact hl
  have hc2 : (heartbeat e.now s).control = 0 := by rw [heartbeat_eq]; exact hc
  have ht2 : ¬ (e.now - (heartbeat e.now s).ledAuxJuegoStart > TIMETOSTART) := by
    rw [heartbeat_eq]
    show ¬ (e.now - s.ledAuxJuegoStart > TIMETOSTART)
    omega
  have hL : gameLight e (heartbeat e.now s) = heartbeat e.now s := by
    unfold gameLight
    rw [if_neg (by rw [hl2]; decide), if_neg ht2]
  rw [mainLoop_GAMEMOLE e s hs]
  unfold caseGAMEMOLE
  rw [hL, gameTimeout_off _ _ hc2]
  unfold gamePoll
  rw [if_neg (by rw [hl2]; decide)]

theorem gamemole_wait_run (l : List Input) (s : State) (hs : s.estado = GAMEMOLE)
    (hl : s.leds = 15) (hc : s.control = 0)
    (ht : ∀ x ∈ l, x.now - s.ledAuxJuegoStart ≤ TIMETOSTART) :
    run l s = (l.map Input.now).foldl (fun st t => heartbeat t st) s := by
  induction l generalizing s with
  | nil => rfl
  | cons x rest ih =>
    have hx := gamemole_wait x s hs hl hc (ht x (List.mem_cons_self x rest))
    show run rest (mainLoop x s) = (rest.map Input.now).foldl _ (heartbeat x.now s)
    rw [hx]
    apply ih
    · rw [heartbeat_eq]; exact hs
    · rw [heartbeat_eq]; exact hl
    · rw [heartbeat_eq]; exact hc
    · intro y hy
      rw [heartbeat_eq]
      exact ht y (List.mem_cons_of_mem x hy)

/-- With the four leds on and the start delay over, an iteration of `GAMEMOLE`
puts the leds out and restarts the time base. -/
theorem gamemole_dark (e : Input) (s : State) (hs : s.estado = GAMEMOLE)
    (hl : s.leds = 15) (hc : s.control = 0)
    (ht : e.now - s.ledAuxJuegoStart > TIMETOSTART) :
    mainLoop e s = { heartbeat e.now s with ledAuxJuegoStart := e.now, leds := 0 } := by
  have hl2 : (heartbeat e.now s).leds = 15 := by rw [heartbeat_eq]; exact hl
  have ht2 : e.now - (heartbeat e.now s).ledAuxJuegoStart > TIMETOSTART := by
    rw [heartbeat_eq]; exact ht
  have hL : gameLight e (heartbeat e.now s)
      = { heartbeat e.now s with ledAuxJuegoStart := e.now, leds := 0 } := by
    unfold gameLight
    rw [if_neg (by rw [hl2]; decide), if_pos ht2, if_pos hl2]
    rfl
  rw [mainLoop_GAMEMOLE e s hs]
  unfold caseGAMEMOLE
  rw [hL, gameTimeout_off _ _ (by rw [heartbeat_eq]; exact hc)]
  unfold gamePoll
  rw [if_neg (by simp)]

/-- With the leds out, an iteration of `GAMEMOLE` first lights the mole LED and
then polls the buttons. -/
theorem gamemole_light (e : Input) (s : State) (hs : s.estado = GAMEMOLE)
    (hl : s.leds = 0) :
    mainLoop e s =
      gamePoll e
        { heartbeat e.now s with
            tiempoRandom := e.now, ledAuxRandom := e.rand1 % 4,
            ledAuxRandomTime := ((e.rand2 % 2001 + 5000 : Nat) : Int),
            leds := 2 ^ (e.rand1 % 4), control := 0 } := by
  have hlt : e.rand1 % 4 < 4 := Nat.mod_lt _ (by decide)
  have hleds : busWrite (mask (e.rand1 % 4 % 256)) = 2 ^ (e.rand1 % 4) := by
    generalize e.rand1 % 4 = r at hlt
    interval_cases r <;> rfl
  have hL : gameLight e (heartbeat e.now s) =
      { heartbeat e.now s with
          tiempoRandom := e.now, ledAuxRandom := e.rand1 % 4,
          ledAuxRandomTime := ((e.rand2 % 2001 + 5000 : Nat) : Int),
          leds := 2 ^ (e.rand1 % 4), control := 0 } := by
    unfold gameLight togleLed
    rw [if_pos (by rw [heartbeat_eq]; exact hl)]
    show ({ heartbeat e.now s with
          tiempoRandom := e.now, ledAuxRandom := e.rand1 % 4,
          ledAuxRandomTime := ((e.rand2 % 2001 + 5000 : Nat) : Int),
          leds := busWrite (mask (e.rand1 % 4 % 256)), control := 0 } : State) = _
    rw [hleds]
  rw [mainLoop_GAMEMOLE e s hs]
  unfold caseGAMEMOLE
  rw [hL, gameTimeout_off _ _ rfl]

theorem two_pow_lit (r : Nat) (hr : r < 4) :
    2 ^ r = 1 ∨ 2 ^ r = 2 ∨ 2 ^ r = 4 ∨ 2 ^ r = 8 := by
  interval_cases r <;> decide

theorem dark_frame (s R X : State) (t now : Int)
    (hR : R = { s with ultimo := R.ultimo })
    (hX : X = { heartbeat now R with ledAuxJuegoStart := t, leds := 0 }) :
    X = { s with ultimo := X.ultimo, leds := 0, ledAuxJuegoStart := t } := by
  cases s
  cases R
  simp only [State.mk.injEq, true_and, and_true] at hR
  obtain ⟨rfl, rfl, rfl, rfl, rfl, rfl, rfl, rfl, rfl, rfl, rfl, rfl, rfl, rfl, rfl⟩ := hR
  rw [hX, heartbeat_eq]

/-! ### The polling loop of `GAMEMOLE` and the button numbering -/

theorem buttonNext_pos (now : Int) (bus : Nat) (i : Fin 4) (b : _sTeclas) :
    (buttonNext now bus i b).pos = b.pos := by
  unfold buttonNext
  split_ifs <;> rfl

/-- The polling loop of `GAMEMOLE` in closed form: every button is updated, the
last button found in `BUTTON_DOWN` is the one recorded in `posBoton`. -/
theorem game_fold (e : Input) (s : State) :
    indices.foldl (gameBody e) s =
      { s with
          ourButton := fun j => buttonNext e.now (e.bus j) j (s.ourButton j),
          estado :=
            if (buttonNext e.now (e.bus 0) 0 (s.ourButton 0)).estado = BUTTON_DOWN ∨
               (buttonNext e.now (e.bus 1) 1 (s.ourButton 1)).estado = BUTTON_DOWN ∨
               (buttonNext e.now (e.bus 2) 2 (s.ourButton 2)).estado = BUTTON_DOWN ∨
               (buttonNext e.now (e.bus 3) 3 (s.ourButton 3)).estado = BUTTON_DOWN
            then COMP else s.estado,
          posBoton :=
            if (buttonNext e.now (e.bus 3) 3 (s.ourButton 3)).estado = BUTTON_DOWN
            then (buttonNext e.now (e.bus 3) 3 (s.ourButton 3)).pos % 65536
            else if (buttonNext e.now (e.bus 2) 2 (s.ourButton 2)).estado = BUTTON_DOWN
            then (buttonNext e.now (e.bus 2) 2 (s.ourButton 2)).pos % 65536
            else if (buttonNext e.now (e.bus 1) 1 (s.ourButton 1)).estado = BUTTON_DOWN
            then (buttonNext e.now (e.bus 1) 1 (s.ourButton 1)).pos % 65536
            else if (buttonNext e.now (e.bus 0) 0 (s.ourButton 0)).estado = BUTTON_DOWN
            then (buttonNext e.now (e.bus 0) 0 (s.ourButton 0)).pos % 65536
            else s.posBoton,
          ledOn :=
            if (buttonNext e.now (e.bus 0) 0 (s.ourButton 0)).estado = BUTTON_DOWN ∨
               (buttonNext e.now (e.bus 1) 1 (s.ourButton 1)).estado = BUTTON_DOWN ∨
               (buttonNext e.now (e.bus 2) 2 (s.ourButton 2)).estado = BUTTON_DOWN ∨
               (buttonNext e.now (e.bus 3) 3 (s.ourButton 3)).estado = BUTTON_DOWN
            then s.ledAuxRandom else s.ledOn } := by
  rcases s with ⟨ob, leds, tiempoMs, estado, ultimo, lar, ledOn, posBoton, tr, lart, lajs,
    ia, control, check, acumTime, acum⟩
  simp only [indices, List.foldl, gameBody_eq]
  by_cases h0 : (buttonNext e.now (e.bus 0) 0 (ob 0)).estado = BUTTON_DOWN <;>
  by_cases h1 : (buttonNext e.now (e.bus 1) 1 (ob 1)).estado = BUTTON_DOWN <;>
  by_cases h2 : (buttonNext e.now (e.bus 2) 2 (ob 2)).estado = BUTTON_DOWN <;>
  by_cases h3 : (buttonNext e.now (e.bus 3) 3 (ob 3)).estado = BUTTON_DOWN <;>
  simp [h0, h1, h2, h3] <;>
  (funext j; fin_cases j <;> simp)

theorem caseSTANDBY_button (e : Input) (t : State) (i : Fin 4) :
    (caseSTANDBY e t).ourButton i = t.ourButton i ∨
    (caseSTANDBY e t).ourButton i = buttonNext e.now (e.bus i) i (t.ourButton i) := by
  unfold caseSTANDBY
  split
  · rw [standby_fold]; exact Or.inr rfl
  · exact Or.inl rfl

theorem caseKEYS_button (e : Input) (t : State) (i : Fin 4) :
    (caseKEYS e t).ourButton i = t.ourButton i ∨
    (caseKEYS e t).ourButton i = buttonNext e.now (e.bus i) i (t.ourButton i) := by
  rw [caseKEYS_eq]
  split_ifs <;> dsimp only <;> (try split_ifs) <;> simp

theorem caseGAMEMOLE_button (e : Input) (t : State) (i : Fin 4) :
    (caseGAMEMOLE e t).ourButton i = t.ourButton i ∨
    (caseGAMEMOLE e t).ourButton i = buttonNext e.now (e.bus i) i (t.ourButton i) := by
  have hL : (gameLight e t).ourButton = t.ourButton := by
    unfold gameLight togleLed
    split_ifs <;> rfl
  have hT : (gameTimeout e (gameLight e t)).ourButton = t.ourButton := by
    unfold gameTimeout
    split_ifs <;> exact hL
  unfold caseGAMEMOLE gamePoll
  split_ifs
  · rw [game_fold]; right; dsimp only; rw [hT]
  · left; rw [hT]
  · left; rw [hT]

theorem blinkCount_button (t : State) : (blinkCount t).ourButton = t.ourButton := by
  unfold blinkCount
  dsimp only
  split <;> rfl

theorem caseWIN_button (e : Input) (t : State) : (caseWIN e t).ourButton = t.ourButton := by
  unfold caseWIN
  split
  · dsimp only
    rw [blinkCount_button]
    split <;> rfl
  · rfl

theorem caseMOLEWIN_button (e : Input) (t : State) :
    (caseMOLEWIN e t).ourButton = t.ourButton := by
  unfold caseMOLEWIN togleLed
  split
  · dsimp only
    rw [blinkCount_button]
    split <;> rfl
  · rfl

theorem caseCOMP_button (t : State) : (caseCOMP t).ourButton = t.ourButton := by
  unfold caseCOMP
  split <;> rfl

/-- One iteration changes a button record only by the transition of
`actuallizaMef` for that button. -/
theorem mainLoop_button (e : Input) (s : State) (i : Fin 4) :
    (mainLoop e s).ourButton i = s.ourButton i ∨
    (mainLoop e s).ourButton i = buttonNext e.now (e.bus i) i (s.ourButton i) := by
  have hob : (heartbeat e.now s).ourButton = s.ourButton := by rw [heartbeat_eq]
  have h1 := caseSTANDBY_button e (heartbeat e.now s) i
  have h2 := caseKEYS_button e (heartbeat e.now s) i
  have h3 := caseGAMEMOLE_button e (heartbeat e.now s) i
  have h4 := caseCOMP_button (heartbeat e.now s)
  have h5 := caseMOLEWIN_button e (heartbeat e.now s)
  have h6 := caseWIN_button e (heartbeat e.now s)
  rw [hob] at h1 h2 h3 h4 h5 h6
  unfold mainLoop gameStep
  split_ifs
  · exact h1
  · exact h2
  · exact h3
  · left; rw [h4]
  · left; rw [h5]
  · left; rw [h6]
  · left; exact congrFun hob i

/-- Every state the program reaches satisfies `PosInv`. -/
theorem reachable_pos (s : State) (h : Reachable s) : PosInv s := by
  induction h with
  | init => intro i; rfl
  | step e s _ ih =>
    intro i
    rcases mainLoop_button e s i with h | h
    · rw [h]; exact ih i
    · rw [h, buttonNext_pos]; exact ih i

/-- A polling iteration of `GAMEMOLE` in a reachable state with a mole LED lit is
the heartbeat, the store of the clock reading in `check`, and the loop over the
four buttons. -/
theorem gamemole_poll (e : Input) (s : State) (hr : Reachable s)
    (hs : s.estado = GAMEMOLE)
    (hl : s.leds = 1 ∨ s.leds = 2 ∨ s.leds = 4 ∨ s.leds = 8)
    (ht : e.now - s.check > INTERVAL) :
    mainLoop e s = indices.foldl (gameBody e) { heartbeat e.now s with check := e.now } := by
  have hc : s.control = 0 := (reachable_inv s hr).1
  have hl2 := lit_ne s.leds hl
  rw [mainLoop_GAMEMOLE e s hs]
  unfold caseGAMEMOLE
  rw [gameLight_lit, gameTimeout_off, gamePoll_sample]
  · rw [heartbeat_eq]; exact hl2.1
  · rw [heartbeat_eq]; exact hl2.2
  · rw [heartbeat_eq]; exact ht
  · rw [heartbeat_eq]; exact hc
  · rw [heartbeat_eq]; exact hl2.1
  · rw [heartbeat_eq]; exact hl2.2

/-- The decision taken by the iteration that handles `COMP`. -/
theorem comp_step (e : Input) (s : State)
    (hs : s.estado = COMP) (hl : s.ledOn < 4) (hp : s.posBoton < 4) :
    (mainLoop e s).estado = if s.posBoton = s.ledOn then WIN else MOLEWIN := by
  have hm := mask_inj s.ledOn s.posBoton hl hp
  have h1 : (heartbeat e.now s).ledOn = s.ledOn := by rw [heartbeat_eq]
  have h2 : (heartbeat e.now s).posBoton = s.posBoton := by rw [heartbeat_eq]
  rw [mainLoop_COMP e s hs]
  unfold caseCOMP
  rw [h1, h2]
  by_cases h : s.posBoton = s.ledOn
  · rw [if_pos (hm.mpr h.symm), if_pos h]
  · rw [if_neg (fun q => h (hm.mp q).symm), if_neg h]

/-- The index recorded by a loop that overwrites its record at every hit is the
highest index that hits. -/
theorem last_hit (d : Fin 4 → Prop) [DecidablePred d] (p : Nat) (i : Fin 4)
    (hi : d i) (hj : ∀ j : Fin 4, i < j → ¬ d j) :
    (if d 3 then 3 else if d 2 then 2 else if d 1 then 1 else if d 0 then 0 else p)
      = i.val := by
  have j1 := hj 1
  have j2 := hj 2
  have j3 := hj 3
  fin_cases i <;> simp_all

theorem last_hit_above (d : Fin 4 → Prop) [DecidablePred d] (p : Nat) (i j : Fin 4)
    (hij : i < j) (hi : d i) (hj : d j) :
    (if d 3 then 3 else if d 2 then 2 else if d 1 then 1 else if d 0 then 0 else p) < 4 ∧
    (if d 3 then 3 else if d 2 then 2 else if d 1 then 1 else if d 0 then 0 else p)
      ≠ i.val := by
  fin_cases i <;> fin_cases j <;>
    first
    | exact absurd hij (by decide)
    | (simp_all; split_ifs <;> simp)
    | simp_all

/-- The fields written by the polling loop, read off `game_fold`, for a loop
that starts from a state `L` with the button records, `posBoton` and `ledOn`
of `s`. -/
theorem fold_fields (e : Input) (L s : State) (hob : L.ourButton = s.ourButton)
    (hes : L.estado = GAMEMOLE) (hpb : L.posBoton = s.posBoton) (hlo : L.ledOn = s.ledOn)
    (hpos : PosInv s) (X : State)
    (hX : X = indices.foldl (gameBody e) { L with check := e.now }) :
    (∀ i : Fin 4, X.ourButton i
      = buttonNext e.now (e.bus i) i (s.ourButton i)) ∧
    X.estado =
      (if (buttonNext e.now (e.bus 0) 0 (s.ourButton 0)).estado = BUTTON_DOWN ∨
          (buttonNext e.now (e.bus 1) 1 (s.ourButton 1)).estado = BUTTON_DOWN ∨
          (buttonNext e.now (e.bus 2) 2 (s.ourButton 2)).estado = BUTTON_DOWN ∨
          (buttonNext e.now (e.bus 3) 3 (s.ourButton 3)).estado = BUTTON_DOWN
       then COMP else GAMEMOLE) ∧
    X.posBoton =
      (if (buttonNext e.now (e.bus 3) 3 (s.ourButton 3)).estado = BUTTON_DOWN then 3
       else if (buttonNext e.now (e.bus 2) 2 (s.ourButton 2)).estado = BUTTON_DOWN then 2
       else if (buttonNext e.now (e.bus 1) 1 (s.ourButton 1)).estado = BUTTON_DOWN then 1
       else if (buttonNext e.now (e.bus 0) 0 (s.ourButton 0)).estado = BUTTON_DOWN then 0
       else s.posBoton) ∧
    X.ledOn =
      (if (buttonNext e.now (e.bus 0) 0 (s.ourButton 0)).estado = BUTTON_DOWN ∨
          (buttonNext e.now (e.bus 1) 1 (s.ourButton 1)).estado = BUTTON_DOWN ∨
          (buttonNext e.now (e.bus 2) 2 (s.ourButton 2)).estado = BUTTON_DOWN ∨
          (buttonNext e.now (e.bus 3) 3 (s.ourButton 3)).estado = BUTTON_DOWN
       then L.ledAuxRandom else s.ledOn) ∧
    X.ledAuxRandom = L.ledAuxRandom := by
  rw [hX, game_fold]
  dsimp only
  rw [hob, hes, hpb, hlo]
  refine ⟨fun i => rfl, rfl, ?_, rfl, rfl⟩
  simp only [buttonNext_pos, hpos 0, hpos 1, hpos 2, hpos 3]
  rfl

/-- The fields written by a polling iteration of `GAMEMOLE` in a reachable
state, whether the mole LED was lit before the iteration or is lit by it. -/
theorem poll_fields (e : Input) (s : State) (hr : Reachable s)
    (hs : s.estado = GAMEMOLE)
    (hl : s.leds = 0 ∨ s.leds = 1 ∨ s.leds = 2 ∨ s.leds = 4 ∨ s.leds = 8)
    (ht : e.now - s.check > INTERVAL) :
    (∀ i : Fin 4, (mainLoop e s).ourButton i
      = buttonNext e.now (e.bus i) i (s.ourButton i)) ∧
    (mainLoop e s).estado =
      (if (buttonNext e.now (e.bus 0) 0 (s.ourButton 0)).estado = BUTTON_DOWN ∨
          (buttonNext e.now (e.bus 1) 1 (s.ourButton 1)).estado = BUTTON_DOWN ∨
          (buttonNext e.now (e.bus 2) 2 (s.ourButton 2)).estado = BUTTON_DOWN ∨
          (buttonNext e.now (e.bus 3) 3 (s.ourButton 3)).estado = BUTTON_DOWN
       then COMP else GAMEMOLE) ∧
    (mainLoop e s).posBoton =
      (if (buttonNext e.now (e.bus 3) 3 (s.ourButton 3)).estado = BUTTON_DOWN then 3
       else if (buttonNext e.now (e.bus 2) 2 (s.ourButton 2)).estado = BUTTON_DOWN then 2
       else if (buttonNext e.now (e.bus 1) 1 (s.ourButton 1)).estado = BUTTON_DOWN then 1
       else if (buttonNext e.now (e.bus 0) 0 (s.ourButton 0)).estado = BUTTON_DOWN then 0
       else s.posBoton) ∧
    (mainLoop e s).ledOn =
      (if (buttonNext e.now (e.bus 0) 0 (s.ourButton 0)).estado = BUTTON_DOWN ∨
          (buttonNext e.now (e.bus 1) 1 (s.ourButton 1)).estado = BUTTON_DOWN ∨
          (buttonNext e.now (e.bus 2) 2 (s.ourButton 2)).estado = BUTTON_DOWN ∨
          (buttonNext e.now (e.bus 3) 3 (s.ourButton 3)).estado = BUTTON_DOWN
       then (mainLoop e s).ledAuxRandom else s.ledOn) ∧
    (mainLoop e s).ledAuxRandom < 4 ∧
    (s.leds ≠ 0 → (mainLoop e s).ledAuxRandom = s.ledAuxRandom) ∧
    (s.leds = 0 → (mainLoop e s).ledAuxRandom = e.rand1 % 4) := by
  have hpos := reachable_pos s hr
  have hrand : s.ledAuxRandom < 4 := (reachable_inv s hr).2.1
  rcases hl with h0 | hlit
  · have hm := gamemole_light e s hs h0
    have hlt : e.rand1 % 4 < 4 := Nat.mod_lt _ (by decide)
    have hl2 := lit_ne _ (two_pow_lit (e.rand1 % 4) hlt)
    rw [gamePoll_sample _ _ hl2.1 hl2.2 (by rw [heartbeat_eq]; exact ht)] at hm
    obtain ⟨f1, f2, f3, f4, f5⟩ := fold_fields e
      { heartbeat e.now s with
          tiempoRandom := e.now, ledAuxRandom := e.rand1 % 4,
          ledAuxRandomTime := ((e.rand2 % 2001 + 5000 : Nat) : Int),
          leds := 2 ^ (e.rand1 % 4), control := 0 } s
      (by rw [heartbeat_eq]) (by rw [heartbeat_eq]; exact hs) (by rw [heartbeat_eq])
      (by rw [heartbeat_eq]) hpos (mainLoop e s) hm
    have f5b : (mainLoop e s).ledAuxRandom = e.rand1 % 4 := f5
    refine ⟨f1, f2, f3, ?_, ?_, fun h => absurd h0 h, fun _ => f5b⟩
    · rw [f4, f5b]
    · rw [f5b]; exact hlt
  · have hl2 := lit_ne s.leds hlit
    have hm := gamemole_poll e s hr hs hlit ht
    obtain ⟨f1, f2, f3, f4, f5⟩ := fold_fields e (heartbeat e.now s) s
      (by rw [heartbeat_eq]) (by rw [heartbeat_eq]; exact hs) (by rw [heartbeat_eq])
      (by rw [heartbeat_eq]) hpos (mainLoop e s) hm
    have f5b : (mainLoop e s).ledAuxRandom = s.ledAuxRandom := by
      rw [f5, heartbeat_eq]
    have f4b : (heartbeat e.now s).ledAuxRandom = s.ledAuxRandom := by rw [heartbeat_eq]
    refine ⟨f1, f2, f3, ?_, ?_, fun _ => f5b, fun h => absurd h hl2.1⟩
    · rw [f4, f5b, f4b]
    · rw [f5b]; exact hrand

/-! ## The claims -/

/-- Claim C1, amended: for `ledOn` and `posBoton` in 0..3, one loop iteration in
state `COMP` sets `estado` to `WIN` if `posBoton = ledOn` and to `MOLEWIN`
otherwise; besides `estado` it changes only the heartbeat time stamp `ultimo`,
which the head of the loop sets to the clock reading when more than `ESTADO`
(1000) ms have passed since its last update. -/
theorem comp_iteration (e : Input) (s : State)
    (hs : s.estado = COMP) (hl : s.ledOn < 4) (hp : s.posBoton < 4) :
    mainLoop e s =
      { s with estado := if s.posBoton = s.ledOn then WIN else MOLEWIN,
               ultimo := if (e.now - s.ultimo) % 4294967296 > ESTADO
                         then e.now % 4294967296 else s.ultimo } := by
  have hm := mask_inj s.ledOn s.posBoton hl hp
  unfold mainLoop heartbeat gameStep caseCOMP
  split <;> simp [hs, hm, eq_comm] <;> split <;> rfl

/-- The iteration in `COMP` reached by `trComp`, as an instance of
`comp_iteration`. -/
theorem comp_iteration_witness :
    mainLoop ⟨3301, busReleased, 0, 0⟩ (run trComp initState) =
      { run trComp initState with
          estado := if (run trComp initState).posBoton = (run trComp initState).ledOn
                    then WIN else MOLEWIN,
          ultimo := if ((3301 : Int) - (run trComp initState).ultimo) % 4294967296 > ESTADO
                    then (3301 : Int) % 4294967296 else (run trComp initState).ultimo } :=
  comp_iteration ⟨3301, busReleased, 0, 0⟩ (run trComp initState)
    (by decide) (by decide) (by decide)

/-- Claim C1 as stated fails: in the reachable `COMP` state after `trComp`
(`ledOn = posBoton = 2`, `ultimo = 2300`) the iteration at 3301 ms sets
`estado` to `WIN` and also `ultimo` to 3301, so the result is not the old state
with only `estado` changed. -/
theorem comp_changes_ultimo :
    (run trComp initState).estado = COMP ∧
    (run trComp initState).ledOn = 2 ∧ (run trComp initState).posBoton = 2 ∧
    (run trComp initState).ultimo = 2300 ∧
    (mainLoop ⟨3301, busReleased, 0, 0⟩ (run trComp initState)).estado = WIN ∧
    (mainLoop ⟨3301, busReleased, 0, 0⟩ (run trComp initState)).ultimo = 3301 ∧
    mainLoop ⟨3301, busReleased, 0, 0⟩ (run trComp initState) ≠
      { run trComp initState with estado := WIN } := by
  refine ⟨by decide, by decide, by decide, by decide, by decide, by decide, ?_⟩
  intro h
  have h2 := congrArg State.ultimo h
  revert h2
  decide

/-- Claim C2: for a button `i` in `BUTTON_UP`, a call of `actuallizaMef(i)` that
reads bit `i` of the bus as 0 (pressed) yields `BUTTON_FALLING`; a second call
yields `BUTTON_DOWN` with `timeDown` the clock reading of that call if the bit
still reads 0, and `BUTTON_UP` with `timeDown` and `timeDiff` as before if it
reads 1.  Whatever the first sample, one call never yields `BUTTON_DOWN`, and
two calls yield `BUTTON_DOWN` exactly when both samples read pressed. -/
theorem debounced_press (i : Fin 4) (s : State) (now1 now2 : Int) (bus1 bus2 : Nat)
    (hup : (s.ourButton i).estado = BUTTON_UP) :
    (bus1.testBit i.val = false →
      ((actuallizaMef now1 bus1 i s).ourButton i).estado = BUTTON_FALLING ∧
      (bus2.testBit i.val = false →
        ((actuallizaMef now2 bus2 i (actuallizaMef now1 bus1 i s)).ourButton i).estado
            = BUTTON_DOWN ∧
        ((actuallizaMef now2 bus2 i (actuallizaMef now1 bus1 i s)).ourButton i).timeDown
            = now2) ∧
      (bus2.testBit i.val = true →
        ((actuallizaMef now2 bus2 i (actuallizaMef now1 bus1 i s)).ourButton i).estado
            = BUTTON_UP ∧
        ((actuallizaMef now2 bus2 i (actuallizaMef now1 bus1 i s)).ourButton i).timeDown
            = (s.ourButton i).timeDown ∧
        ((actuallizaMef now2 bus2 i (actuallizaMef now1 bus1 i s)).ourButton i).timeDiff
            = (s.ourButton i).timeDiff)) ∧
    ((actuallizaMef now1 bus1 i s).ourButton i).estado ≠ BUTTON_DOWN ∧
    (((actuallizaMef now2 bus2 i (actuallizaMef now1 bus1 i s)).ourButton i).estado
        = BUTTON_DOWN ↔ bus1.testBit i.val = false ∧ bus2.testBit i.val = false) := by
  simp only [actuallizaMef_eq, setButton, buttonNext, if_true, hup]
  cases h1 : bus1.testBit i.val <;> cases h2 : bus2.testBit i.val <;> simp [hup]

/-- Button 0 of the initial state, sampled pressed at 50 ms and at 100 ms, as an instance
of `debounced_press`. -/
theorem debounced_press_witness :
    ((actuallizaMef 100 14 0 (actuallizaMef 50 14 0 initState)).ourButton 0).estado
        = BUTTON_DOWN ∧
    ((actuallizaMef 100 14 0 (actuallizaMef 50 14 0 initState)).ourButton 0).timeDown
        = 100 :=
  ((debounced_press 0 initState 50 100 14 14 (by decide)).1 (by decide)).2.1 (by decide)

/-- Claim C3 fails on the code: in the execution `trRound` the player starts the
game with button 0 (held 1100 ms), hits the mole and wins; the sixth blink
tick puts the game back in `STANDBY` at 6405 ms.  In the next iteration, at
6450 ms, no button is pressed on the bus (none has been since 3301 ms), yet the
game moves to `KEYS`: the `timeDiff` of button 0 still holds the 1100 ms of the
press that started the previous round. -/
theorem standby_restarts_without_press :
    (run trRound.dropLast initState).estado = WIN ∧
    (run trRound initState).estado = STANDBY ∧
    (∀ i : Fin 4, (busReleased i).testBit i.val = true) ∧
    ((run trRound initState).ourButton 0).timeDiff = 1100 ∧
    (∀ i : Fin 4, i ≠ 0 →
      ((mainLoop ⟨6450, busReleased, 0, 0⟩ (run trRound initState)).ourButton i).timeDiff = 0) ∧
    (mainLoop ⟨6450, busReleased, 0, 0⟩ (run trRound initState)).estado = KEYS := by
  decide

/-- Claim C4 fails on the code: after `trStart` the game is in `GAMEMOLE` with
mole LED 2 lit (`leds = 4`), `ledAuxJuegoStart = 2300`, 5000 ms to hit it and
no button down.  The iteration at 7400 ms, 5100 ms after `ledAuxJuegoStart`
and with no button pressed, leaves the game in `GAMEMOLE` instead of moving it
to `MOLEWIN`, because `control` is 0. -/
theorem timeout_does_not_fire :
    (run trStart initState).estado = GAMEMOLE ∧
    (run trStart initState).leds = 4 ∧
    (run trStart initState).ledAuxJuegoStart = 2300 ∧
    (run trStart initState).ledAuxRandomTime = 5000 ∧
    (run trStart initState).control = 0 ∧
    (∀ i : Fin 4, ((run trStart initState).ourButton i).estado = BUTTON_UP) ∧
    (7400 : Int) - (run trStart initState).ledAuxJuegoStart
      > (run trStart initState).ledAuxRandomTime ∧
    (mainLoop ⟨7400, busReleased, 0, 0⟩ (run trStart initState)).estado = GAMEMOLE ∧
    (∀ i : Fin 4, ((mainLoop ⟨7400, busReleased, 0, 0⟩ (run trStart initState)).ourButton i).estado
      = BUTTON_UP) := by
  decide

/-- Claim C5, amended: in a reachable state `WIN` is entered only by the
iteration that handles `COMP`, and it is entered with `acum = 1`.  From a `WIN` state with
`acum = 1`, after the `k`-th blink tick (`1 <= k <= 6`, any number of early
iterations in between) the leds are 15 for odd `k` and 0 for even `k`, that is
15, 0, 15, 0, 15, 0; `estado` is still `WIN` for `k < 6` and is `STANDBY` for
`k = 6`, where `acum` is back to 1.  An iteration of `WIN` with
`now - acumTime <= CAMBIO` changes nothing but the heartbeat time stamp
`ultimo`. -/
theorem win_pattern (s : State) (segs : List (List Input × Input)) (e : Input) :
    (Reachable s → s.estado ≠ WIN → (mainLoop e s).estado = WIN →
      s.estado = COMP ∧ (mainLoop e s).acum = 1) ∧
    (s.estado = WIN → s.acum = 1 → Ticks s.acumTime segs →
      1 ≤ segs.length → segs.length ≤ 6 →
        (runTicks segs s).leds = (if segs.length % 2 = 1 then 15 else 0) ∧
        (runTicks segs s).estado = (if segs.length = 6 then STANDBY else WIN) ∧
        (runTicks segs s).acum = (if segs.length = 6 then 1 else segs.length + 1)) ∧
    (s.estado = WIN → e.now - s.acumTime ≤ CAMBIO →
      mainLoop e s =
        { s with ultimo := if (e.now - s.ultimo) % 4294967296 > ESTADO
                           then e.now % 4294967296 else s.ultimo }) := by
  refine ⟨fun hr hn hw => ?_, fun hs ha ht h1 h6 => ?_, fun hs ht => ?_⟩
  · have hs := blink_entered_from_COMP e s hr WIN (Or.inl rfl) hn hw
    rw [(comp_keeps e s hs).1]
    exact ⟨hs, (reachable_inv s hr).2.2.2 (by rw [hs]; decide)⟩
  · have hne : segs ≠ [] := by
      intro h; rw [h] at h1; exact absurd h1 (by decide)
    obtain ⟨p1, p2, p3, _⟩ :=
      blink_ticks segs s (Or.inl hs) (by omega) ht hne (by omega)
    have hon : blinkOn s = 15 := by
      unfold blinkOn; rw [if_pos hs]; rfl
    rw [p1, p2, p3, ha, hs, hon]
    refine ⟨?_, ?_, ?_⟩
    · have : (1 + segs.length - 1) % 2 = 0 ↔ ¬ (segs.length % 2 = 1) := by omega
      by_cases h : segs.length % 2 = 1
      · rw [if_neg (by omega), if_pos h]
      · rw [if_pos (by omega), if_neg h]
    · by_cases h : segs.length = 6
      · rw [if_pos (by omega), if_pos h]
      · rw [if_neg (by omega), if_neg h]
    · by_cases h : segs.length = 6
      · rw [if_pos (by omega), if_pos h]
      · rw [if_neg (by omega), if_neg h]; omega
  · rw [blink_early e s (Or.inl hs) ht, heartbeat_eq]

/-- The six blink ticks of `sixTicks` after the won round `trWin`, as an instance
of `win_pattern`: the leds end at 0 and the game in `STANDBY`. -/
theorem win_pattern_witness :
    (runTicks sixTicks (run trWin initState)).leds
      = (if sixTicks.length % 2 = 1 then 15 else 0) ∧
    (runTicks sixTicks (run trWin initState)).estado
      = (if sixTicks.length = 6 then STANDBY else WIN) ∧
    (runTicks sixTicks (run trWin initState)).acum
      = (if sixTicks.length = 6 then 1 else sixTicks.length + 1) :=
  (win_pattern (run trWin initState) sixTicks ⟨0, busReleased, 0, 0⟩).2.1
    (by decide) (by decide)
    (by
      show Ticks 0 sixTicks
      simp [Ticks, sixTicks, CAMBIO])
    (by decide) (by decide)

/-- Claim C5 as stated fails in its last sentence: after `trWinTick` the game
is in `WIN` with `acumTime = 3300` and `ultimo = 2300`; the iteration at
3301 ms comes only 1 ms after the last tick and still changes the state, since
it sets `ultimo` to 3301. -/
theorem win_early_iteration_changes_ultimo :
    (run trWinTick initState).estado = WIN ∧
    (3301 : Int) - (run trWinTick initState).acumTime ≤ CAMBIO ∧
    (run trWinTick initState).ultimo = 2300 ∧
    (mainLoop ⟨3301, busReleased, 0, 0⟩ (run trWinTick initState)).ultimo = 3301 ∧
    mainLoop ⟨3301, busReleased, 0, 0⟩ (run trWinTick initState) ≠ run trWinTick initState := by
  refine ⟨by decide, by decide, by decide, by decide, ?_⟩
  intro h
  have h2 := congrArg State.ultimo h
  revert h2
  decide

/-- Claim C6: in a reachable state `MOLEWIN` is entered only by the iteration
that handles `COMP`, and it is entered with `acum = 1` and `ledAuxRandom < 4`.  From a
`MOLEWIN` state with `acum = 1` and `ledAuxRandom = r < 4`, after the `k`-th
blink tick (`1 <= k <= 6`, any number of early iterations in between) the leds
are `mask[r] = 2 ^ r` for odd `k` and 0 for even `k`; `estado` is still
`MOLEWIN` for `k < 6` and is `STANDBY` for `k = 6`, where `acum` is back to 1. -/
theorem lose_pattern (s : State) (segs : List (List Input × Input)) (e : Input) :
    (Reachable s → s.estado ≠ MOLEWIN → (mainLoop e s).estado = MOLEWIN →
      s.estado = COMP ∧ (mainLoop e s).acum = 1 ∧ (mainLoop e s).ledAuxRandom < 4) ∧
    (s.estado = MOLEWIN → s.acum = 1 → s.ledAuxRandom < 4 → Ticks s.acumTime segs →
      1 ≤ segs.length → segs.length ≤ 6 →
        (runTicks segs s).leds = (if segs.length % 2 = 1 then mask s.ledAuxRandom else 0) ∧
        mask s.ledAuxRandom = 2 ^ s.ledAuxRandom ∧
        (runTicks segs s).estado = (if segs.length = 6 then STANDBY else MOLEWIN) ∧
        (runTicks segs s).acum = (if segs.length = 6 then 1 else segs.length + 1)) := by
  refine ⟨fun hr hn hw => ?_, fun hs ha hrnd ht h1 h6 => ?_⟩
  · have hs := blink_entered_from_COMP e s hr MOLEWIN (Or.inr rfl) hn hw
    rw [(comp_keeps e s hs).1, (comp_keeps e s hs).2.1]
    exact ⟨hs, (reachable_inv s hr).2.2.2 (by rw [hs]; decide), (reachable_inv s hr).2.1⟩
  · have hne : segs ≠ [] := by
      intro h; rw [h] at h1; exact absurd h1 (by decide)
    obtain ⟨p1, p2, p3, _⟩ :=
      blink_ticks segs s (Or.inr hs) (by omega) ht hne (by omega)
    have hon : blinkOn s = mask s.ledAuxRandom ∧ mask s.ledAuxRandom = 2 ^ s.ledAuxRandom := by
      unfold blinkOn
      rw [if_neg (by rw [hs]; decide)]
      generalize s.ledAuxRandom = r at hrnd
      interval_cases r <;> exact ⟨rfl, rfl⟩
    rw [p1, p2, p3, ha, hs, hon.1]
    refine ⟨?_, hon.2, ?_, ?_⟩
    · by_cases h : segs.length % 2 = 1
      · rw [if_neg (by omega), if_pos h]
      · rw [if_pos (by omega), if_neg h]
    · by_cases h : segs.length = 6
      · rw [if_pos (by omega), if_pos h]
      · rw [if_neg (by omega), if_neg h]
    · by_cases h : segs.length = 6
      · rw [if_pos (by omega), if_pos h]
      · rw [if_neg (by omega), if_neg h]; omega

/-- The six blink ticks of `sixTicks` after the lost round `trLose` (mole LED 2),
as an instance of `lose_pattern`. -/
theorem lose_pattern_witness :
    (runTicks sixTicks (run trLose initState)).leds
      = (if sixTicks.length % 2 = 1 then mask (run trLose initState).ledAuxRandom else 0) ∧
    mask (run trLose initState).ledAuxRandom = 2 ^ (run trLose initState).ledAuxRandom ∧
    (runTicks sixTicks (run trLose initState)).estado
      = (if sixTicks.length = 6 then STANDBY else MOLEWIN) ∧
    (runTicks sixTicks (run trLose initState)).acum
      = (if sixTicks.length = 6 then 1 else sixTicks.length + 1) :=
  (lose_pattern (run trLose initState) sixTicks ⟨0, busReleased, 0, 0⟩).2
    (by decide) (by decide) (by decide)
    (by
      show Ticks 0 sixTicks
      simp [Ticks, sixTicks, CAMBIO])
    (by decide) (by decide)

/-- Claim C7: for all `rand()` results `a` and `b`, a `GAMEMOLE` iteration that
starts with the leds at 0 sets `ledAuxRandom` to `a mod 4`, lights exactly that
LED (`leds = 2 ^ (a mod 4)`, one of 1, 2, 4, 8) and sets `ledAuxRandomTime` to
`(b mod 2001) + 5000`, a value between 5000 and 7000. -/
theorem mole_selection (e : Input) (s : State)
    (hs : s.estado = GAMEMOLE) (hl : s.leds = 0) :
    (mainLoop e s).ledAuxRandom = e.rand1 % 4 ∧
    (mainLoop e s).ledAuxRandom < 4 ∧
    (mainLoop e s).leds = 2 ^ (e.rand1 % 4) ∧
    ((mainLoop e s).leds = 1 ∨ (mainLoop e s).leds = 2 ∨
      (mainLoop e s).leds = 4 ∨ (mainLoop e s).leds = 8) ∧
    (mainLoop e s).ledAuxRandomTime = ((e.rand2 % 2001 : Nat) : Int) + 5000 ∧
    5000 ≤ (mainLoop e s).ledAuxRandomTime ∧ (mainLoop e s).ledAuxRandomTime ≤ 7000 := by
  have hL : gameLight e (heartbeat e.now s) =
      { heartbeat e.now s with
          tiempoRandom := e.now, ledAuxRandom := e.rand1 % 4,
          ledAuxRandomTime := ((e.rand2 % 2001 + 5000 : Nat) : Int),
          leds := busWrite (mask (e.rand1 % 4 % 256)), control := 0 } := by
    unfold gameLight togleLed
    rw [if_pos (by rw [heartbeat_eq]; exact hl)]
  have hlt : e.rand1 % 4 < 4 := Nat.mod_lt _ (by decide)
  have hleds : busWrite (mask (e.rand1 % 4 % 256)) = 2 ^ (e.rand1 % 4) := by
    generalize e.rand1 % 4 = r at hlt
    interval_cases r <;> rfl
  have hcases : busWrite (mask (e.rand1 % 4 % 256)) = 1 ∨
      busWrite (mask (e.rand1 % 4 % 256)) = 2 ∨
      busWrite (mask (e.rand1 % 4 % 256)) = 4 ∨
      busWrite (mask (e.rand1 % 4 % 256)) = 8 := by
    generalize e.rand1 % 4 = r at hlt
    interval_cases r <;> decide
  have hm : mainLoop e s = gamePoll e (gameLight e (heartbeat e.now s)) := by
    rw [mainLoop_GAMEMOLE e s hs]
    unfold caseGAMEMOLE
    rw [gameTimeout_off]
    rw [hL]
  have hP : ∀ t : State, (gamePoll e t).ledAuxRandom = t.ledAuxRandom ∧
      (gamePoll e t).leds = t.leds ∧
      (gamePoll e t).ledAuxRandomTime = t.ledAuxRandomTime := by
    intro t
    unfold gamePoll
    split_ifs
    · rw [game_fold_frame]; exact ⟨rfl, rfl, rfl⟩
    · exact ⟨rfl, rfl, rfl⟩
    · exact ⟨rfl, rfl, rfl⟩
  obtain ⟨p1, p2, p3⟩ := hP (gameLight e (heartbeat e.now s))
  rw [hm, p1, p2, p3, hL]
  refine ⟨rfl, hlt, hleds, hcases, ?_, ?_, ?_⟩
  · show ((e.rand2 % 2001 + 5000 : Nat) : Int) = _
    push_cast; rfl
  · show (5000 : Int) ≤ ((e.rand2 % 2001 + 5000 : Nat) : Int)
    omega
  · show ((e.rand2 % 2001 + 5000 : Nat) : Int) ≤ 7000
    omega

/-- The iteration at 2301 ms after `trDark` with `rand()` results 2 and 0, as an instance
of `mole_selection`: LED 2 is lit. -/
theorem mole_selection_witness :
    (mainLoop ⟨2301, busReleased, 2, 0⟩ (run trDark initState)).ledAuxRandom = 2 % 4 ∧
    (mainLoop ⟨2301, busReleased, 2, 0⟩ (run trDark initState)).leds = 2 ^ (2 % 4) :=
  have h := mole_selection ⟨2301, busReleased, 2, 0⟩ (run trDark initState)
    (by decide) (by decide)
  ⟨h.1, h.2.2.1⟩

/-- Claim C8: for a button `i` in `BUTTON_RISING`, a call of `actuallizaMef(i)`
that reads bit `i` of the bus as 1 (released) sets the state to `BUTTON_UP` and
`timeDiff` to the clock reading minus `timeDown`; a call that reads 0 (pressed)
sets the state back to `BUTTON_DOWN` and leaves `timeDiff` as it was.  In every
other situation `timeDiff` keeps its value, `timeDown` keeps its value except
in the transition from `BUTTON_FALLING` to `BUTTON_DOWN`, which stores the
clock reading, and the records of the other buttons are untouched. -/
theorem press_duration (i : Fin 4) (s : State) (now : Int) (bus : Nat) :
    ((s.ourButton i).estado = BUTTON_RISING → bus.testBit i.val = true →
      ((actuallizaMef now bus i s).ourButton i).estado = BUTTON_UP ∧
      ((actuallizaMef now bus i s).ourButton i).timeDiff = now - (s.ourButton i).timeDown) ∧
    ((s.ourButton i).estado = BUTTON_RISING → bus.testBit i.val = false →
      ((actuallizaMef now bus i s).ourButton i).estado = BUTTON_DOWN ∧
      ((actuallizaMef now bus i s).ourButton i).timeDiff = (s.ourButton i).timeDiff) ∧
    (¬ ((s.ourButton i).estado = BUTTON_RISING ∧ bus.testBit i.val = true) →
      ((actuallizaMef now bus i s).ourButton i).timeDiff = (s.ourButton i).timeDiff) ∧
    (¬ ((s.ourButton i).estado = BUTTON_FALLING ∧ bus.testBit i.val = false) →
      ((actuallizaMef now bus i s).ourButton i).timeDown = (s.ourButton i).timeDown) ∧
    ((s.ourButton i).estado = BUTTON_FALLING → bus.testBit i.val = false →
      ((actuallizaMef now bus i s).ourButton i).estado = BUTTON_DOWN ∧
      ((actuallizaMef now bus i s).ourButton i).timeDown = now) ∧
    (∀ j, j ≠ i → (actuallizaMef now bus i s).ourButton j = s.ourButton j) := by
  simp only [actuallizaMef_eq, setButton, buttonNext, if_true]
  refine ⟨?_, ?_, ?_, ?_, ?_, ?_⟩
  · intro h hb; simp [h, hb]
  · intro h hb; simp [h, hb]
  · intro h
    cases hb : bus.testBit i.val <;> simp only [hb, Bool.false_eq_true, if_false, if_true] <;>
      split_ifs <;> simp_all
  · intro h
    cases hb : bus.testBit i.val <;> simp only [hb, Bool.false_eq_true, if_false, if_true] <;>
      split_ifs <;> simp_all
  · intro h hb; simp [h, hb]
  · intro j hj; simp [hj]

/-- Button 0 after `trRising` (in `BUTTON_RISING`, down since 100 ms), read
released at 1200 ms, as an instance of `press_duration`. -/
theorem press_duration_witness :
    ((actuallizaMef 1200 15 0 (run trRising initState)).ourButton 0).estado = BUTTON_UP ∧
    ((actuallizaMef 1200 15 0 (run trRising initState)).ourButton 0).timeDiff
      = 1200 - ((run trRising initState).ourButton 0).timeDown :=
  (press_duration 0 (run trRising initState) 1200 15).1 (by decide) (by decide)

/-- Claim C9: a `STANDBY` iteration with `now - tiempoMs > INTERVAL` sets
`tiempoMs` to `now`, updates the four buttons once each in index order, and
sets `estado` to `KEYS` exactly when some button has `timeDiff >= TIMETOSTART`
after its update (1000 itself is enough); otherwise `estado` stays `STANDBY`.
The leds are unchanged. -/
theorem standby_sample (e : Input) (s : State)
    (hs : s.estado = STANDBY) (ht : e.now - s.tiempoMs > INTERVAL) :
    (mainLoop e s).tiempoMs = e.now ∧
    (mainLoop e s).ourButton =
      (actuallizaMef e.now (e.bus 3) 3 (actuallizaMef e.now (e.bus 2) 2
        (actuallizaMef e.now (e.bus 1) 1 (actuallizaMef e.now (e.bus 0) 0 s)))).ourButton ∧
    (∀ i, (mainLoop e s).ourButton i = (actuallizaMef e.now (e.bus i) i s).ourButton i) ∧
    ((mainLoop e s).estado = KEYS ↔
      ∃ i, ((actuallizaMef e.now (e.bus i) i s).ourButton i).timeDiff ≥ TIMETOSTART) ∧
    ((¬ ∃ i, ((actuallizaMef e.now (e.bus i) i s).ourButton i).timeDiff ≥ TIMETOSTART) →
      (mainLoop e s).estado = STANDBY) ∧
    (mainLoop e s).leds = s.leds := by
  have hex : (∃ i : Fin 4, ((actuallizaMef e.now (e.bus i) i s).ourButton i).timeDiff
        ≥ TIMETOSTART) ↔
      ((buttonNext e.now (e.bus 0) 0 (s.ourButton 0)).timeDiff ≥ TIMETOSTART ∨
       (buttonNext e.now (e.bus 1) 1 (s.ourButton 1)).timeDiff ≥ TIMETOSTART ∨
       (buttonNext e.now (e.bus 2) 2 (s.ourButton 2)).timeDiff ≥ TIMETOSTART ∨
       (buttonNext e.now (e.bus 3) 3 (s.ourButton 3)).timeDiff ≥ TIMETOSTART) := by
    simp only [actuallizaMef_eq, setButton, if_true]
    constructor
    · rintro ⟨i, hi⟩
      fin_cases i
      · exact Or.inl hi
      · exact Or.inr (Or.inl hi)
      · exact Or.inr (Or.inr (Or.inl hi))
      · exact Or.inr (Or.inr (Or.inr hi))
    · rintro (h | h | h | h)
      exacts [⟨0, h⟩, ⟨1, h⟩, ⟨2, h⟩, ⟨3, h⟩]
  have hm := mainLoop_STANDBY_poll e s hs ht
  rw [hex, four_updates, hm, standby_fold, heartbeat_eq]
  refine ⟨rfl, rfl, ?_, ?_, ?_, rfl⟩
  · intro i
    simp [actuallizaMef_eq, setButton]
  · simp only [hs]
    split_ifs with h <;> simp [h]
  · intro h
    simp only [hs]
    rw [if_neg h]
/-- The iteration at 1200 ms after `trRising`, as an instance of
`standby_sample`: button 0 is confirmed released after 1100 ms. -/
theorem standby_sample_witness :
    (mainLoop ⟨1200, busReleased, 0, 0⟩ (run trRising initState)).tiempoMs = 1200 ∧
    ((mainLoop ⟨1200, busReleased, 0, 0⟩ (run trRising initState)).estado = KEYS ↔
      ∃ i, ((actuallizaMef 1200 (busReleased i) i (run trRising initState)).ourButton i).timeDiff
        ≥ TIMETOSTART) :=
  ⟨(standby_sample ⟨1200, busReleased, 0, 0⟩ (run trRising initState)
      (by decide) (by decide)).1,
   (standby_sample ⟨1200, busReleased, 0, 0⟩ (run trRising initState)
      (by decide) (by decide)).2.2.2.1⟩

/-- Claim C10: in a reachable state, a `STANDBY` iteration with
`now - tiempoMs <= INTERVAL`, and a `GAMEMOLE` iteration with a mole LED lit
and `now - check <= INTERVAL`, leave every button record, `estado` and the leds
as they are (the whole state, but for the heartbeat time stamp), and the bus
and `rand()` values do not influence the result: no button is read.  A
sampling iteration of either state stores its clock reading in `tiempoMs`,
respectively `check`, so the next sample is more than `INTERVAL` ms later. -/
theorem sampling_interval (e : Input) (s : State) (hr : Reachable s) :
    ((s.estado = STANDBY ∧ e.now - s.tiempoMs ≤ INTERVAL) ∨
     (s.estado = GAMEMOLE ∧ (s.leds = 1 ∨ s.leds = 2 ∨ s.leds = 4 ∨ s.leds = 8) ∧
        e.now - s.check ≤ INTERVAL) →
      (mainLoop e s).ourButton = s.ourButton ∧
      (mainLoop e s).estado = s.estado ∧
      (mainLoop e s).leds = s.leds ∧
      mainLoop e s =
        { s with ultimo := if (e.now - s.ultimo) % 4294967296 > ESTADO
                           then e.now % 4294967296 else s.ultimo } ∧
      ∀ (bus : Fin 4 → Nat) (r1 r2 : Nat), mainLoop ⟨e.now, bus, r1, r2⟩ s = mainLoop e s) ∧
    (s.estado = STANDBY → e.now - s.tiempoMs > INTERVAL → (mainLoop e s).tiempoMs = e.now) ∧
    (s.estado = GAMEMOLE → (s.leds = 1 ∨ s.leds = 2 ∨ s.leds = 4 ∨ s.leds = 8) →
      e.now - s.check > INTERVAL → (mainLoop e s).check = e.now) := by
  have hc : s.control = 0 := (reachable_inv s hr).1
  have key : ∀ e : Input,
      ((s.estado = STANDBY ∧ e.now - s.tiempoMs ≤ INTERVAL) ∨
       (s.estado = GAMEMOLE ∧ (s.leds = 1 ∨ s.leds = 2 ∨ s.leds = 4 ∨ s.leds = 8) ∧
          e.now - s.check ≤ INTERVAL)) →
      mainLoop e s = heartbeat e.now s := by
    intro e h
    rcases h with ⟨hs, ht⟩ | ⟨hs, hl, ht⟩
    · rw [mainLoop_STANDBY e s hs]
      unfold caseSTANDBY
      rw [if_neg]
      rw [heartbeat_eq]
      show ¬ (e.now - s.tiempoMs > INTERVAL)
      omega
    · have hl2 := lit_ne s.leds hl
      rw [mainLoop_GAMEMOLE e s hs]
      unfold caseGAMEMOLE
      rw [gameLight_lit, gameTimeout_off, gamePoll_idle]
      · rw [heartbeat_eq]; exact ht
      · rw [heartbeat_eq]; exact hc
      · rw [heartbeat_eq]; exact hl2.1
      · rw [heartbeat_eq]; exact hl2.2
  refine ⟨fun h => ?_, ?_, ?_⟩
  · have h1 := key e h
    refine ⟨?_, ?_, ?_, ?_, fun bus r1 r2 => ?_⟩
    · rw [h1, heartbeat_eq]
    · rw [h1, heartbeat_eq]
    · rw [h1, heartbeat_eq]
    · rw [h1, heartbeat_eq]
    · rw [h1, key ⟨e.now, bus, r1, r2⟩ h]
  · intro hs ht
    rw [mainLoop_STANDBY_poll e s hs ht, standby_fold]
  · intro hs hl ht
    have hl2 := lit_ne s.leds hl
    rw [mainLoop_GAMEMOLE e s hs]
    unfold caseGAMEMOLE
    rw [gameLight_lit, gameTimeout_off, gamePoll_sample, game_fold_frame]
    · rw [heartbeat_eq]; exact hl2.1
    · rw [heartbeat_eq]; exact hl2.2
    · rw [heartbeat_eq]; exact ht
    · rw [heartbeat_eq]; exact hc
    · rw [heartbeat_eq]; exact hl2.1
    · rw [heartbeat_eq]; exact hl2.2

/-- The iteration at 2320 ms after `trStart` (mole LED 2 lit, last poll at
2301 ms), with button 2 pressed on the bus, as an instance of
`sampling_interval`: the press is not seen. -/
theorem sampling_interval_witness :
    (mainLoop ⟨2320, busPressed 2, 0, 0⟩ (run trStart initState)).ourButton
      = (run trStart initState).ourButton ∧
    (mainLoop ⟨2320, busPressed 2, 0, 0⟩ (run trStart initState)).estado
      = (run trStart initState).estado ∧
    (mainLoop ⟨2320, busPressed 2, 0, 0⟩ (run trStart initState)).leds
      = (run trStart initState).leds :=
  have h := (sampling_interval ⟨2320, busPressed 2, 0, 0⟩ (run trStart initState)
    (reachable_run trStart initState Reachable.init)).1
    (Or.inr ⟨by decide, by decide, by decide⟩)
  ⟨h.1, h.2.1, h.2.2.1⟩

/-- Claim C11: a `KEYS` iteration updates the buttons in index order up to the
first one that is not `BUTTON_UP` after its update: a button is updated when
all buttons before it are `BUTTON_UP` after their updates, and a button that
comes after one that is not `BUTTON_UP` after its update keeps its record.  The
iteration moves to `GAMEMOLE`, sets the leds to 15 and stores the clock reading
in `ledAuxJuegoStart` exactly when all four buttons are `BUTTON_UP` after their
updates; otherwise `estado` stays `KEYS` and the leds and `ledAuxJuegoStart` are
unchanged. -/
theorem keys_iteration (e : Input) (s : State) (hs : s.estado = KEYS) :
    (∀ i : Fin 4,
      (∀ j : Fin 4, j < i →
        ((actuallizaMef e.now (e.bus j) j s).ourButton j).estado = BUTTON_UP) →
      (mainLoop e s).ourButton i = (actuallizaMef e.now (e.bus i) i s).ourButton i) ∧
    (∀ i k : Fin 4, k < i →
      ((actuallizaMef e.now (e.bus k) k s).ourButton k).estado ≠ BUTTON_UP →
      (mainLoop e s).ourButton i = s.ourButton i) ∧
    ((mainLoop e s).estado = GAMEMOLE ↔
      ∀ i : Fin 4, ((actuallizaMef e.now (e.bus i) i s).ourButton i).estado = BUTTON_UP) ∧
    ((∀ i : Fin 4, ((actuallizaMef e.now (e.bus i) i s).ourButton i).estado = BUTTON_UP) →
      (mainLoop e s).leds = 15 ∧ (mainLoop e s).ledAuxJuegoStart = e.now) ∧
    ((¬ ∀ i : Fin 4, ((actuallizaMef e.now (e.bus i) i s).ourButton i).estado = BUTTON_UP) →
      (mainLoop e s).estado = KEYS ∧ (mainLoop e s).leds = s.leds ∧
      (mainLoop e s).ledAuxJuegoStart = s.ledAuxJuegoStart) := by
  have hb : ∀ i : Fin 4, (actuallizaMef e.now (e.bus i) i s).ourButton i
      = buttonNext e.now (e.bus i) i (s.ourButton i) := by
    intro i; simp [actuallizaMef_eq, setButton]
  have hall : (∀ i : Fin 4, (buttonNext e.now (e.bus i) i (s.ourButton i)).estado = BUTTON_UP) ↔
      ((buttonNext e.now (e.bus 0) 0 (s.ourButton 0)).estado = BUTTON_UP ∧
       (buttonNext e.now (e.bus 1) 1 (s.ourButton 1)).estado = BUTTON_UP ∧
       (buttonNext e.now (e.bus 2) 2 (s.ourButton 2)).estado = BUTTON_UP ∧
       (buttonNext e.now (e.bus 3) 3 (s.ourButton 3)).estado = BUTTON_UP) := by
    constructor
    · intro h; exact ⟨h 0, h 1, h 2, h 3⟩
    · rintro ⟨h0, h1, h2, h3⟩ i
      fin_cases i
      exacts [h0, h1, h2, h3]
  have hob : (heartbeat e.now s).ourButton = s.ourButton := by rw [heartbeat_eq]
  have hle : (heartbeat e.now s).leds = s.leds := by rw [heartbeat_eq]
  have hes : (heartbeat e.now s).estado = KEYS := by rw [heartbeat_eq]; exact hs
  have hst : (heartbeat e.now s).ledAuxJuegoStart = s.ledAuxJuegoStart := by rw [heartbeat_eq]
  rw [mainLoop_KEYS e s hs, caseKEYS_eq]
  simp only [hb, hob, hall]
  clear hb hall
  by_cases h0 : (buttonNext e.now (e.bus 0) 0 (s.ourButton 0)).estado = BUTTON_UP <;>
  by_cases h1 : (buttonNext e.now (e.bus 1) 1 (s.ourButton 1)).estado = BUTTON_UP <;>
  by_cases h2 : (buttonNext e.now (e.bus 2) 2 (s.ourButton 2)).estado = BUTTON_UP <;>
  by_cases h3 : (buttonNext e.now (e.bus 3) 3 (s.ourButton 3)).estado = BUTTON_UP <;>
  simp only [h0, h1, h2, h3, ne_eq, not_true_eq_false, not_false_eq_true, if_true, if_false,
    hle, hes, hst, and_self, and_true, true_and, and_false, false_and, iff_true, iff_false,
    true_implies, false_implies, not_true, not_false_iff, implies_true] <;>
  (repeat' apply And.intro) <;>
  first
  | decide
  | (intro i hi
     have q0 := hi 0
     have q1 := hi 1
     have q2 := hi 2
     fin_cases i <;> simp_all)
  | (intro i k hk hn
     fin_cases i <;> fin_cases k <;> simp_all)

/-- Two iterations in the `KEYS` state reached by `trKeys`, as instances of
`keys_iteration`: with no button pressed the game moves to `GAMEMOLE` with the
leds at 15; with button 1 pressed the loop stops at button 1, the game stays in
`KEYS` and button 3 keeps its record. -/
theorem keys_iteration_witness :
    ((mainLoop ⟨1201, busReleased, 0, 0⟩ (run trKeys initState)).leds = 15 ∧
     (mainLoop ⟨1201, busReleased, 0, 0⟩ (run trKeys initState)).ledAuxJuegoStart = 1201) ∧
    ((mainLoop ⟨1201, busPressed 1, 0, 0⟩ (run trKeys initState)).estado = KEYS ∧
     (mainLoop ⟨1201, busPressed 1, 0, 0⟩ (run trKeys initState)).leds
       = (run trKeys initState).leds ∧
     (mainLoop ⟨1201, busPressed 1, 0, 0⟩ (run trKeys initState)).ledAuxJuegoStart
       = (run trKeys initState).ledAuxJuegoStart) ∧
    (mainLoop ⟨1201, busPressed 1, 0, 0⟩ (run trKeys initState)).ourButton 3
      = (run trKeys initState).ourButton 3 :=
  ⟨(keys_iteration ⟨1201, busReleased, 0, 0⟩ (run trKeys initState) (by decide)).2.2.2.1
      (by decide),
   (keys_iteration ⟨1201, busPressed 1, 0, 0⟩ (run trKeys initState) (by decide)).2.2.2.2
      (by decide),
   (keys_iteration ⟨1201, busPressed 1, 0, 0⟩ (run trKeys initState) (by decide)).2.1
      3 1 (by decide) (by decide)⟩

/-- Claim C12: let the game be in `GAMEMOLE` in a reachable state with the leds
at 15 and `ledAuxJuegoStart = t0`.  Iterations with `now - t0 <= TIMETOSTART`
leave the leds at 15 and `estado = GAMEMOLE` (they change only the heartbeat
time stamp, and the result depends on the clock readings alone, so no button
is read).  After them, the first iteration with `now - t0 > TIMETOSTART` sets
the leds to 0 and `ledAuxJuegoStart` to `now`, again without reading a button.
The iteration after that first lights one mole LED, `leds = 2 ^ (rand mod 4)`,
and only then polls the buttons. -/
theorem start_sequence (s : State) (early : List Input) (e e2 : Input)
    (hr : Reachable s) (hs : s.estado = GAMEMOLE) (hl : s.leds = 15)
    (hearly : ∀ x ∈ early, x.now - s.ledAuxJuegoStart ≤ TIMETOSTART)
    (hfirst : e.now - s.ledAuxJuegoStart > TIMETOSTART) :
    ((run early s).leds = 15 ∧ (run early s).estado = GAMEMOLE ∧
      run early s = { s with ultimo := (run early s).ultimo } ∧
      ∀ early2 : List Input, early2.map Input.now = early.map Input.now →
        run early2 s = run early s) ∧
    (mainLoop e (run early s) =
        { s with ultimo := (mainLoop e (run early s)).ultimo,
                 leds := 0, ledAuxJuegoStart := e.now } ∧
      ∀ (bus : Fin 4 → Nat) (r1 r2 : Nat),
        mainLoop ⟨e.now, bus, r1, r2⟩ (run early s) = mainLoop e (run early s)) ∧
    ((mainLoop e2 (mainLoop e (run early s))).leds = 2 ^ (e2.rand1 % 4) ∧
      ((mainLoop e2 (mainLoop e (run early s))).leds = 1 ∨
       (mainLoop e2 (mainLoop e (run early s))).leds = 2 ∨
       (mainLoop e2 (mainLoop e (run early s))).leds = 4 ∨
       (mainLoop e2 (mainLoop e (run early s))).leds = 8) ∧
      ∃ lit : State, lit.leds = 2 ^ (e2.rand1 % 4) ∧
        ∀ bus : Fin 4 → Nat,
          mainLoop ⟨e2.now, bus, e2.rand1, e2.rand2⟩ (mainLoop e (run early s))
            = gamePoll ⟨e2.now, bus, e2.rand1, e2.rand2⟩ lit) := by
  have hc : s.control = 0 := (reachable_inv s hr).1
  have hrun := gamemole_wait_run early s hs hl hc hearly
  have hfr := heartbeats_frame (early.map Input.now) s
  rw [← hrun] at hfr
  have hs1 : (run early s).estado = GAMEMOLE := by rw [hfr]; exact hs
  have hl1 : (run early s).leds = 15 := by rw [hfr]; exact hl
  have hc1 : (run early s).control = 0 := by rw [hfr]; exact hc
  have ht1 : e.now - (run early s).ledAuxJuegoStart > TIMETOSTART := by rw [hfr]; exact hfirst
  have hdark : ∀ x : Input, x.now = e.now →
      mainLoop x (run early s) =
        { heartbeat e.now (run early s) with ledAuxJuegoStart := e.now, leds := 0 } := by
    intro x hx
    have h := gamemole_dark x (run early s) hs1 hl1 hc1 (by rw [hx]; exact ht1)
    rw [hx] at h
    exact h
  have hd := hdark e rfl
  have hs2 : (mainLoop e (run early s)).estado = GAMEMOLE := by
    rw [hd, heartbeat_eq]; exact hs1
  have hl2 : (mainLoop e (run early s)).leds = 0 := by rw [hd]
  have hlight : ∀ x : Input, mainLoop x (mainLoop e (run early s)) = _ :=
    fun x => gamemole_light x (mainLoop e (run early s)) hs2 hl2
  have hpoll : ∀ (x : Input) (t : State), (gamePoll x t).leds = t.leds := by
    intro x t
    unfold gamePoll
    split_ifs
    · rw [game_fold_frame]
    · rfl
    · rfl
  have hleds : (mainLoop e2 (mainLoop e (run early s))).leds = 2 ^ (e2.rand1 % 4) := by
    rw [hlight e2, hpoll]
  refine ⟨⟨hl1, hs1, hfr, ?_⟩, ⟨?_, ?_⟩, ⟨hleds, ?_, ?_⟩⟩
  · intro early2 h2
    have hearly2 : ∀ x ∈ early2, x.now - s.ledAuxJuegoStart ≤ TIMETOSTART := by
      intro x hx
      have hm : x.now ∈ early2.map Input.now := List.mem_map_of_mem Input.now hx
      rw [h2] at hm
      obtain ⟨y, hy, hyx⟩ := List.mem_map.mp hm
      rw [← hyx]
      exact hearly y hy
    rw [gamemole_wait_run early2 s hs hl hc hearly2, h2, hrun]
  · exact dark_frame s (run early s) (mainLoop e (run early s)) e.now e.now hfr hd
  · intro bus r1 r2
    rw [hdark ⟨e.now, bus, r1, r2⟩ rfl, hd]
  · rw [hleds]
    exact two_pow_lit _ (Nat.mod_lt _ (by decide))
  · exact ⟨{ heartbeat e2.now (mainLoop e (run early s)) with
              tiempoRandom := e2.now, ledAuxRandom := e2.rand1 % 4,
              ledAuxRandomTime := ((e2.rand2 % 2001 + 5000 : Nat) : Int),
              leds := 2 ^ (e2.rand1 % 4), control := 0 },
      rfl, fun bus => hlight ⟨e2.now, bus, e2.rand1, e2.rand2⟩⟩

/-- The start sequence after `trEnter` (`ledAuxJuegoStart = 1201`), as an instance
of `start_sequence`: the iterations of `trWait` at 1500 and 2201 ms
leave the leds at 15 although button 2 is pressed on the bus, the iteration at
2300 ms is the first late one, and the iteration at 2301 ms lights LED 2. -/
theorem start_sequence_witness :
    ((run trWait (run trEnter initState)).leds = 15 ∧
     (run trWait (run trEnter initState)).estado = GAMEMOLE) ∧
    (mainLoop ⟨2301, busReleased, 2, 0⟩
      (mainLoop ⟨2300, busReleased, 0, 0⟩ (run trWait (run trEnter initState)))).leds
      = 2 ^ (2 % 4) :=
  have h := start_sequence (run trEnter initState) trWait
    ⟨2300, busReleased, 0, 0⟩ ⟨2301, busReleased, 2, 0⟩
    (reachable_run trEnter initState Reachable.init)
    (by decide) (by decide) (by decide) (by decide)
  ⟨⟨h.1.1, h.1.2.1⟩, h.2.2.1⟩

/-- Claim C13: in a reachable state, a polling iteration of `GAMEMOLE` (mole LED
lit before the iteration, or lit by it, and `now - check > INTERVAL`) updates
the four buttons and sets `estado` to `COMP` exactly when at least one button
is `BUTTON_DOWN` after its update (otherwise `estado` stays `GAMEMOLE`); then
`ledOn = ledAuxRandom`, the index of the mole LED, and `posBoton` is the
highest index among the buttons that are `BUTTON_DOWN`.  Hence, when the button
of the mole and a button of higher index are both down, the next iteration
moves to `MOLEWIN`, and when the mole is LED 3 and all four buttons are down,
the next iteration moves to `WIN`. -/
theorem hit_detection (e e2 : Input) (s : State) (hr : Reachable s)
    (hs : s.estado = GAMEMOLE)
    (hl : s.leds = 0 ∨ s.leds = 1 ∨ s.leds = 2 ∨ s.leds = 4 ∨ s.leds = 8)
    (ht : e.now - s.check > INTERVAL) :
    (∀ i : Fin 4,
      (mainLoop e s).ourButton i = (actuallizaMef e.now (e.bus i) i s).ourButton i) ∧
    ((mainLoop e s).estado = COMP ↔
      ∃ i : Fin 4, ((actuallizaMef e.now (e.bus i) i s).ourButton i).estado = BUTTON_DOWN) ∧
    ((¬ ∃ i : Fin 4, ((actuallizaMef e.now (e.bus i) i s).ourButton i).estado = BUTTON_DOWN) →
      (mainLoop e s).estado = GAMEMOLE) ∧
    (∀ i : Fin 4,
      ((actuallizaMef e.now (e.bus i) i s).ourButton i).estado = BUTTON_DOWN →
      (∀ j : Fin 4, i < j →
        ((actuallizaMef e.now (e.bus j) j s).ourButton j).estado ≠ BUTTON_DOWN) →
      (mainLoop e s).posBoton = i.val ∧
      (mainLoop e s).ledOn = (mainLoop e s).ledAuxRandom) ∧
    ((mainLoop e s).ledAuxRandom < 4 ∧
      (s.leds ≠ 0 → (mainLoop e s).ledAuxRandom = s.ledAuxRandom) ∧
      (s.leds = 0 → (mainLoop e s).ledAuxRandom = e.rand1 % 4)) ∧
    (∀ i j : Fin 4, i.val = (mainLoop e s).ledAuxRandom → i < j →
      ((actuallizaMef e.now (e.bus i) i s).ourButton i).estado = BUTTON_DOWN →
      ((actuallizaMef e.now (e.bus j) j s).ourButton j).estado = BUTTON_DOWN →
      (mainLoop e2 (mainLoop e s)).estado = MOLEWIN) ∧
    ((mainLoop e s).ledAuxRandom = 3 →
      (∀ i : Fin 4, ((actuallizaMef e.now (e.bus i) i s).ourButton i).estado = BUTTON_DOWN) →
      (mainLoop e2 (mainLoop e s)).estado = WIN) := by
  have hb : ∀ i : Fin 4, (actuallizaMef e.now (e.bus i) i s).ourButton i
      = buttonNext e.now (e.bus i) i (s.ourButton i) := by
    intro i; simp [actuallizaMef_eq, setButton]
  obtain ⟨hB, hE, hP, hO, hR4, hRlit, hRnew⟩ := poll_fields e s hr hs hl ht
  have hex : (∃ i : Fin 4, (buttonNext e.now (e.bus i) i (s.ourButton i)).estado = BUTTON_DOWN) ↔
      ((buttonNext e.now (e.bus 0) 0 (s.ourButton 0)).estado = BUTTON_DOWN ∨
       (buttonNext e.now (e.bus 1) 1 (s.ourButton 1)).estado = BUTTON_DOWN ∨
       (buttonNext e.now (e.bus 2) 2 (s.ourButton 2)).estado = BUTTON_DOWN ∨
       (buttonNext e.now (e.bus 3) 3 (s.ourButton 3)).estado = BUTTON_DOWN) := by
    constructor
    · rintro ⟨i, hi⟩
      fin_cases i
      · exact Or.inl hi
      · exact Or.inr (Or.inl hi)
      · exact Or.inr (Or.inr (Or.inl hi))
      · exact Or.inr (Or.inr (Or.inr hi))
    · rintro (h | h | h | h)
      exacts [⟨0, h⟩, ⟨1, h⟩, ⟨2, h⟩, ⟨3, h⟩]
  have hany : ∀ i : Fin 4, (buttonNext e.now (e.bus i) i (s.ourButton i)).estado = BUTTON_DOWN →
      (mainLoop e s).estado = COMP ∧ (mainLoop e s).ledOn = (mainLoop e s).ledAuxRandom := by
    intro i hi
    have h := hex.mp ⟨i, hi⟩
    rw [hE, hO, if_pos h, if_pos h]
    exact ⟨rfl, rfl⟩
  simp only [hb]
  refine ⟨?_, ?_, ?_, ?_, ⟨hR4, hRlit, hRnew⟩, ?_, ?_⟩
  · intro i; rw [hB]
  · rw [hE, hex]
    split_ifs with h
    · exact ⟨fun _ => h, fun _ => rfl⟩
    · exact ⟨fun q => absurd q (by decide), fun q => absurd q h⟩
  · intro h
    rw [hex] at h
    rw [hE, if_neg h]
  · intro i hi hj
    refine ⟨?_, (hany i hi).2⟩
    rw [hP]
    exact last_hit
      (fun k : Fin 4 => (buttonNext e.now (e.bus k) k (s.ourButton k)).estado = BUTTON_DOWN)
      s.posBoton i hi hj
  · intro i j hi hij di dj
    have hcomp := hany i di
    have hne : (mainLoop e s).posBoton < 4 ∧ (mainLoop e s).posBoton ≠ i.val := by
      rw [hP]
      exact last_hit_above
        (fun k : Fin 4 => (buttonNext e.now (e.bus k) k (s.ourButton k)).estado = BUTTON_DOWN)
        s.posBoton i j hij di dj
    rw [comp_step e2 (mainLoop e s) hcomp.1 (by rw [hcomp.2]; exact hR4) hne.1,
      hcomp.2, ← hi, if_neg hne.2]
  · intro h3 hall
    have hcomp := hany 3 (hall 3)
    have hp3 : (mainLoop e s).posBoton = 3 := by rw [hP, if_pos (hall 3)]
    rw [comp_step e2 (mainLoop e s) hcomp.1 (by rw [hcomp.2]; exact hR4)
      (by rw [hp3]; decide), hcomp.2, hp3, h3, if_pos rfl]

/-- Two polling iterations at 3300 ms, as instances of `hit_detection`: after
`trBoth` (mole LED 2) buttons 2 and 3 both reach `BUTTON_DOWN` and the next
iteration moves to `MOLEWIN`; after `trAllDown` (mole LED 3) all four buttons
reach `BUTTON_DOWN` and the next iteration moves to `WIN`. -/
theorem hit_detection_witness :
    (mainLoop ⟨3301, busReleased, 0, 0⟩
      (mainLoop ⟨3300, busTwoThree, 0, 0⟩ (run trBoth initState))).estado = MOLEWIN ∧
    (mainLoop ⟨3301, busReleased, 0, 0⟩
      (mainLoop ⟨3300, busAll, 0, 0⟩ (run trAllDown initState))).estado = WIN :=
  ⟨(hit_detection ⟨3300, busTwoThree, 0, 0⟩ ⟨3301, busReleased, 0, 0⟩ (run trBoth initState)
      (reachable_run trBoth initState Reachable.init)
      (by decide) (by decide) (by decide)).2.2.2.2.2.1 2 3
      (by decide) (by decide) (by decide) (by decide),
   (hit_detection ⟨3300, busAll, 0, 0⟩ ⟨3301, busReleased, 0, 0⟩ (run trAllDown initState)
      (reachable_run trAllDown initState Reachable.init)
      (by decide) (by decide) (by decide)).2.2.2.2.2.2
      (by decide) (by decide)⟩

end JuegoTopo
